import Mathlib

/-!
Verification of the `ide` terminal UI (Go): a shallow embedding of the
window-spec codec, the config/tmux command helpers and the bubbletea
application state machine, with theorems settling the specification claims.

Modelling conventions:
* Go strings are modelled as `List Char` (`GoStr`); Go byte-wise string
  comparison agrees with code-point lexicographic order on UTF-8, which is
  the `List.Lex` order on `List Char`.
* `strings.TrimSpace` / `unicode.IsSpace` are modelled on the ASCII
  whitespace characters (space, tab, newline, carriage return, vertical
  tab, form feed); all data handled by the program is ASCII.
* `strings.ToLower` / `strings.EqualFold` are modelled by ASCII lowering,
  matching Go's behaviour on ASCII input.
* I/O (the JSON config file, the tmux binary, the OS environment) is made
  explicit: command closures become pure functions taking the data that
  `config.LoadAll` returned and returning the data handed to
  `config.SaveAll`; OS-dependent path expansion is an explicit function
  parameter; tmux liveness queries are explicit boolean parameters.
-/

set_option maxRecDepth 10000

namespace Ide

/-- Go strings, modelled as lists of characters. -/
abbrev GoStr := List Char

/-- Embed a Lean string literal as a `GoStr`. -/
def gs (s : String) : GoStr := s.toList

instance [DecidableEq ε] [DecidableEq α] : DecidableEq (Except ε α) := fun x y =>
  match x, y with
  | .ok a, .ok b =>
    if h : a = b then isTrue (by rw [h])
    else isFalse fun he => by cases he; exact h rfl
  | .error a, .error b =>
    if h : a = b then isTrue (by rw [h])
    else isFalse fun he => by cases he; exact h rfl
  | .ok _, .error _ => isFalse fun he => by cases he
  | .error _, .ok _ => isFalse fun he => by cases he

/-- Model of `unicode.IsSpace` restricted to ASCII whitespace. -/
def goIsSpace (c : Char) : Bool :=
  c = ' ' || c = '\t' || c = '\n' || c = '\r' || c = '\x0b' || c = '\x0c'

/-- Model of `strings.TrimSpace`: drop whitespace from both ends. -/
def trimSpace (l : GoStr) : GoStr :=
  ((l.dropWhile goIsSpace).reverse.dropWhile goIsSpace).reverse

/-- Model of `strings.Split` with a single-character separator. -/
def splitOnChar (c : Char) : GoStr → List GoStr
  | [] => [[]]
  | x :: xs =>
    if x = c then [] :: splitOnChar c xs
    else
      match splitOnChar c xs with
      | [] => [[x]]
      | h :: t => (x :: h) :: t

/-- Model of `strings.Join` with a single-character separator. -/
def joinChar (c : Char) : List GoStr → GoStr
  | [] => []
  | [p] => p
  | p :: q :: ps => p ++ c :: joinChar c (q :: ps)

/-- Model of `strings.SplitN(s, sep, 2)` with a single-character separator:
the part before the first occurrence and the part after it (the whole
string and `[]` if the separator does not occur). -/
def splitFirst (c : Char) (l : GoStr) : GoStr × GoStr :=
  ((l.takeWhile (· ≠ c)), (l.dropWhile (· ≠ c)).tail)

/-- Model of `strings.ReplaceAll` with single-character pattern and
replacement. -/
def replaceChar (a b : Char) (l : GoStr) : GoStr :=
  l.map fun x => if x = a then b else x

/-- The ASCII upper-to-lower letter table. -/
def lowerTable : List (Char × Char) :=
  [('A', 'a'), ('B', 'b'), ('C', 'c'), ('D', 'd'), ('E', 'e'), ('F', 'f'),
   ('G', 'g'), ('H', 'h'), ('I', 'i'), ('J', 'j'), ('K', 'k'), ('L', 'l'),
   ('M', 'm'), ('N', 'n'), ('O', 'o'), ('P', 'p'), ('Q', 'q'), ('R', 'r'),
   ('S', 's'), ('T', 't'), ('U', 'u'), ('V', 'v'), ('W', 'w'), ('X', 'x'),
   ('Y', 'y'), ('Z', 'z')]

/-- ASCII lowering of one character (model of `unicode.ToLower` on the
ASCII input this program handles). -/
def goLowerChar (c : Char) : Char :=
  match lowerTable.find? (fun p => p.1 == c) with
  | some p => p.2
  | none => c

/-- Model of `strings.ToLower` (ASCII). -/
def goToLower (l : GoStr) : GoStr := l.map goLowerChar

/-- Model of `strings.EqualFold` (ASCII case folding). -/
def equalFold (a b : GoStr) : Bool := goToLower a == goToLower b

/-- Model of `strings.Contains` with a single-character substring. -/
def containsChar (l : GoStr) (c : Char) : Bool := l.contains c

/-- Model of `strings.HasPrefix`. -/
def strStartsWith : GoStr → GoStr → Bool
  | _, [] => true
  | [], _ :: _ => false
  | a :: as, b :: bs => a == b && strStartsWith as bs

/-- Model of `strings.Contains` with an arbitrary substring. -/
def containsSub (sub : GoStr) : GoStr → Bool
  | [] => strStartsWith [] sub
  | a :: t => strStartsWith (a :: t) sub || containsSub sub t

/-- Drop the last rune of a text buffer (`trimLastRune` in the source). -/
def trimLastRune (l : GoStr) : GoStr :=
  if l = [] then l else l.dropLast

/-! ## Data model (`internal/config`) -/

/-- `config.WindowTemplate`: one window's name, optional startup command
and optional working-directory override. -/
structure WindowTemplate where
  name : GoStr
  cmd : GoStr := []
  cwd : GoStr := []
deriving DecidableEq, Inhabited

/-- `config.Template`: a named reusable window layout. -/
structure Template where
  name : GoStr
  windows : List WindowTemplate
deriving DecidableEq, Inhabited

/-- `config.Environment`: a named project context. -/
structure Environment where
  name : GoStr
  root : GoStr := []
  folder : GoStr := []
  dbConnection : GoStr := []
  windows : List WindowTemplate
deriving DecidableEq, Inhabited

/-- `config.Data`: the persisted configuration document. -/
structure Data where
  environments : List Environment
  templates : List Template
  theme : GoStr
deriving DecidableEq, Inhabited

/-- `config.legacyDefaultWindows`: the built-in five-window default set. -/
def legacyDefaultWindows (dbConnection : GoStr) : List WindowTemplate :=
  let dbCmd :=
    if trimSpace dbConnection = [] then gs "dbdash"
    else gs "dbdash connect " ++ trimSpace dbConnection
  [ { name := gs "editor", cmd := gs "nvim ." },
    { name := gs "terminal" },
    { name := gs "lazygit", cmd := gs "lazygit" },
    { name := gs "k9s", cmd := gs "k9s -n te" },
    { name := gs "database", cmd := dbCmd } ]

/-- `config.DefaultWindows` (cloning is the identity on immutable lists). -/
def DefaultWindows : List WindowTemplate := legacyDefaultWindows []

/-! ## Session-name derivation (`internal/tmux`) -/

/-- `tmux.SessionName`: deterministic session slug for an environment
name. -/
def SessionName (envName : GoStr) : GoStr :=
  let clean := replaceChar ' ' '-' (trimSpace (goToLower envName))
  if clean = [] then gs "ide" else gs "ide-" ++ clean

/-- `tmux.safeWindowName`. -/
def safeWindowName (name : GoStr) : GoStr :=
  let name := trimSpace name
  if name = [] then gs "shell" else replaceChar ' ' '-' name

/-- `tmux.WindowNames`: the window names of an environment as shown by the
UI (never empty). -/
def WindowNames (env : Environment) : List GoStr :=
  if env.windows = [] then [gs "shell"]
  else env.windows.map fun w => safeWindowName w.name

/-! ## Window-spec codec (`internal/ui`) -/

/-- Errors produced by the window-spec codec.  Each constructor models one
`fmt.Errorf` call site; a constructor argument records the entry that the
Go error message names with `%q`. -/
inductive WinErr where
  /-- `"at least one window is required"` -/
  | atLeastOneRequired
  /-- `"empty window entry"` -/
  | emptyEntry
  /-- `"window name cannot be empty in %q"` -/
  | emptyNameIn (entry : GoStr)
  /-- `"window name cannot be empty"` -/
  | emptyNameBare
  /-- `"invalid window entry %q"` -/
  | invalidEntry (entry : GoStr)
deriving DecidableEq, Inhabited

/-- The entry text `formatWindowSpec` emits for one window, or `none` when
the window is skipped because its trimmed name is empty. -/
def fmtEntry (w : WindowTemplate) : Option GoStr :=
  let name := trimSpace w.name
  if name = [] then none
  else
    let cmd := trimSpace w.cmd
    let cwd := trimSpace w.cwd
    if cmd ≠ [] ∨ cwd ≠ [] then
      some (name ++ '=' :: cmd ++ (if cwd ≠ [] then '|' :: cwd else []))
    else some name

/-- `formatWindowSpec`: encode a window list to one line, entries joined
by `;` (an empty window list yields the empty string, as in the source's
early return). -/
def formatWindowSpec (windows : List WindowTemplate) : GoStr :=
  joinChar ';' (windows.filterMap fmtEntry)

/-- `splitWindowEntries`: split a spec on `;` if present else `,`, trim
entries and drop empty ones. -/
def splitWindowEntries (spec : GoStr) : List GoStr :=
  let spec := trimSpace spec
  if spec = [] then []
  else
    let separator := if containsChar spec ';' then ';' else ','
    ((splitOnChar separator spec).map trimSpace).filter (· ≠ [])

/-- `parseWindowEntry`: decode one entry. -/
def parseWindowEntry (entry : GoStr) : Except WinErr WindowTemplate :=
  let entry := trimSpace entry
  if entry = [] then .error .emptyEntry
  else if containsChar entry '=' then
    let parts := splitFirst '=' entry
    let name := trimSpace parts.1
    if name = [] then .error (.emptyNameIn entry)
    else
      let cmdPart := trimSpace parts.2
      if containsChar cmdPart '|' then
        let cmdCwd := splitFirst '|' cmdPart
        .ok { name := name, cmd := trimSpace cmdCwd.1, cwd := trimSpace cmdCwd.2 }
      else .ok { name := name, cmd := cmdPart, cwd := [] }
  else if containsChar entry '|' then
    let parts := splitOnChar '|' entry
    if parts.length > 3 then .error (.invalidEntry entry)
    else
      let name := trimSpace (parts.headD [])
      if name = [] then .error (.emptyNameIn entry)
      else
        let cmd := if parts.length ≥ 2 then trimSpace (parts.getD 1 []) else []
        let cwd := if parts.length = 3 then trimSpace (parts.getD 2 []) else []
        .ok { name := name, cmd := cmd, cwd := cwd }
  else
    let name := trimSpace entry
    if name = [] then .error .emptyNameBare
    else .ok { name := name }

/-- The entry loop of `parseWindowSpec`: first error wins, otherwise
windows are collected in order. -/
def parseEntries : List GoStr → Except WinErr (List WindowTemplate)
  | [] => .ok []
  | e :: es =>
    match parseWindowEntry e with
    | .error err => .error err
    | .ok w =>
      match parseEntries es with
      | .error err => .error err
      | .ok ws => .ok (w :: ws)

/-- `parseWindowSpec`: decode a whole window-spec line. -/
def parseWindowSpec (spec : GoStr) : Except WinErr (List WindowTemplate) :=
  let entries := splitWindowEntries spec
  if entries = [] then .error .atLeastOneRequired
  else parseEntries entries

/-- A window with all three fields whitespace-trimmed (the claims compare
decoded windows with originals "modulo whitespace trimming"). -/
def trimWindow (w : WindowTemplate) : WindowTemplate :=
  { name := trimSpace w.name, cmd := trimSpace w.cmd, cwd := trimSpace w.cwd }

/-! ## Asynchronous command bodies (`internal/ui`)

Each `tea.Cmd` closure is modelled as a pure function of the data its I/O
calls would observe: the `config.LoadAll` result is a parameter, and the
result records the data handed to `config.SaveAll` (an `Except.error`
result means the body returned before any save).  tmux calls are
abstracted by boolean parameters; external I/O failures (file write
errors, kill failures) are outside the pure fragment. -/

/-- `cloneWindowTemplates` (copying is the identity on immutable lists). -/
def cloneWindowTemplates (windows : List WindowTemplate) : List WindowTemplate :=
  windows

/-- `normalizeWindowName` (the `ui` package copy). -/
def normalizeWindowName (name : GoStr) : GoStr :=
  let name := trimSpace name
  if name = [] then gs "shell" else replaceChar ' ' '-' name

/-- The `for i := range xs` search loops of the source: index and element
of the first match. -/
def findWithIdx (p : α → Bool) : List α → Option (Nat × α)
  | [] => none
  | a :: l =>
    if p a then some (0, a)
    else (findWithIdx p l).map fun ia => (ia.1 + 1, ia.2)

/-- `normalizeRootPath`: whitespace-trimming is pure; the remaining
environment-variable expansion, home-directory expansion and
`filepath.Clean` read the OS and are abstracted as `osPath` (which, as in
Go, may produce an empty result, e.g. from an unset variable).  A blank
input deterministically yields the empty path. -/
def normalizeRootPath (osPath : GoStr → GoStr) (value : GoStr) : GoStr :=
  let t := trimSpace value
  if t = [] then [] else osPath t

/-- Errors of `createEnvironmentCmd`. -/
inductive CreateErr where
  /-- `"name is required"` -/
  | nameRequired
  /-- `"root path is required"` -/
  | rootRequired
  /-- `"environment %q already exists"` -/
  | duplicateName (name : GoStr)
deriving DecidableEq, Inhabited

/-- Body of `createEnvironmentCmd`: validate, reject duplicates
(case-insensitively, after trimming), default the window list, append the
new environment and save.  The `ok` payload is the created environment
together with the data handed to `config.SaveAll`; an error is returned
before any save happens. -/
def createEnvironment (osPath : GoStr → GoStr) (name root : GoStr)
    (windows : List WindowTemplate) (data : Data) :
    Except CreateErr (Environment × Data) :=
  let name := trimSpace name
  let root := normalizeRootPath osPath root
  if name = [] then .error .nameRequired
  else if root = [] then .error .rootRequired
  else if data.environments.any (fun env => equalFold (trimSpace env.name) name) then
    .error (.duplicateName name)
  else
    let windows := if windows = [] then DefaultWindows else windows
    let newEnv : Environment :=
      { name := name, root := root, windows := cloneWindowTemplates windows }
    .ok (newEnv, { data with environments := data.environments ++ [newEnv] })

/-- Errors of `deleteEnvironmentCmd`. -/
inductive DeleteErr where
  /-- `"environment %q not found"` -/
  | notFound (name : GoStr)
deriving DecidableEq, Inhabited

/-- Success payload of `deleteEnvironmentCmd`: the fields of
`environmentDeletedMsg` plus the environment list handed to
`config.SaveAll`. -/
structure DeleteOk where
  environment : GoStr
  session : GoStr
  killed : Bool
  newEnvironments : List Environment
deriving DecidableEq, Inhabited

/-- Body of `deleteEnvironmentCmd`: find the environment by
case-insensitive trimmed name, remove it, save, then best-effort kill its
live session (`tmuxOk` models `tmux.CheckTmuxExists() == nil`,
`hasSession` models `tmux.HasSession`; the kill itself is assumed to
succeed, as external kill failures are I/O). -/
def deleteEnvironmentRun (name : GoStr) (data : Data) (tmuxOk : Bool)
    (hasSession : GoStr → Bool) : Except DeleteErr DeleteOk :=
  match findWithIdx
      (fun e => equalFold (trimSpace e.name) (trimSpace name))
      data.environments with
  | none => .error (.notFound name)
  | some (idx, removed) =>
    let newEnvs := data.environments.eraseIdx idx
    let session := SessionName removed.name
    if tmuxOk && hasSession session then
      .ok { environment := removed.name, session := session, killed := true,
            newEnvironments := newEnvs }
    else
      .ok { environment := removed.name, session := session, killed := false,
            newEnvironments := newEnvs }

/-- Errors of `moveWindowOrderCmd`. -/
inductive MoveErr where
  /-- `"direction must be non-zero"` -/
  | zeroDirection
  /-- `"environment %q not found"` -/
  | envNotFound (name : GoStr)
  /-- `"environment %q has fewer than 2 windows"` -/
  | fewerThanTwoWindows (name : GoStr)
  /-- `"window %q not found in template"` -/
  | windowNotFound (name : GoStr)
  /-- `"window is already first"` -/
  | alreadyFirst
  /-- `"window is already last"` -/
  | alreadyLast
deriving DecidableEq, Inhabited

/-- Body of `moveWindowOrderCmd`: locate the environment and the window by
normalized name, reject boundary moves, swap the two windows and save.
The `ok` payload is the environment list handed to `config.Save` together
with the environment name reported in `windowMovedMsg` (the live tmux
`swap-window` call is external I/O). -/
def moveWindowOrder (envName windowName : GoStr) (direction : Int)
    (envs : List Environment) : Except MoveErr (List Environment × GoStr) :=
  if direction = 0 then .error .zeroDirection
  else
    match findWithIdx
        (fun e => equalFold (trimSpace e.name) (trimSpace envName)) envs with
    | none => .error (.envNotFound envName)
    | some (envIdx, env) =>
      if env.windows.length < 2 then .error (.fewerThanTwoWindows env.name)
      else
        let targetWindow := normalizeWindowName windowName
        match findWithIdx
            (fun w => normalizeWindowName w.name == targetWindow) env.windows with
        | none => .error (.windowNotFound windowName)
        | some (sourceIdx, _) =>
          let destinationIdx : Int := (sourceIdx : Int) + direction
          if destinationIdx < 0 ∨ (env.windows.length : Int) ≤ destinationIdx then
            if direction < 0 then .error .alreadyFirst else .error .alreadyLast
          else
            let d := destinationIdx.toNat
            let srcWin := env.windows.getD sourceIdx default
            let dstWin := env.windows.getD d default
            let windows' := (env.windows.set sourceIdx dstWin).set d srcWin
            .ok (envs.set envIdx { env with windows := windows' }, env.name)

/-- The environment comparator of `loadConfigCmd`'s `sort.Slice` call
(`strings.ToLower(name) <`). -/
def envLess (a b : Environment) : Bool :=
  decide (goToLower a.name < goToLower b.name)

/-- The template comparator of `loadConfigCmd`'s `sort.SliceStable` call:
templates named "default" (case-insensitively) first, then by lowercase
name. -/
def tplLess (a b : Template) : Bool :=
  let leftDefault := equalFold a.name (gs "default")
  let rightDefault := equalFold b.name (gs "default")
  if leftDefault && !rightDefault then true
  else if !leftDefault && rightDefault then false
  else decide (goToLower a.name < goToLower b.name)

/-- The fields of `configLoadedMsg`. -/
structure ConfigLoadedMsg where
  envs : List Environment := []
  templates : List Template := []
  theme : GoStr := []
  err : Option GoStr := none
deriving DecidableEq, Inhabited

/-- Body of `loadConfigCmd` on a successful `config.LoadAll`: sort the
environments by case-insensitive name and the templates default-first
(Go's `sort.Slice`/`sort.SliceStable` are modelled by `List.mergeSort`
with the non-strict complements of the source comparators). -/
def loadConfigResult (data : Data) : ConfigLoadedMsg :=
  { envs := data.environments.mergeSort fun a b => ! envLess b a,
    templates := data.templates.mergeSort fun a b => ! tplLess b a,
    theme := trimSpace data.theme }

/-! ## Application state machine (`internal/ui`) -/

/-- `uiTheme`: a named palette of color roles. -/
structure UiTheme where
  name : GoStr
  appBG : GoStr := []
  appFG : GoStr := []
  paneBG : GoStr := []
  border : GoStr := []
  selectedFG : GoStr := []
  selectedBG : GoStr := []
  active : GoStr := []
  inactive : GoStr := []
  accent : GoStr := []
  muted : GoStr := []
  status : GoStr := []
deriving DecidableEq, Inhabited

/-- `defaultThemes`: the static theme catalog. -/
def defaultThemes : List UiTheme :=
  [ ⟨gs "Midnight", gs "#0f1020", gs "#d7dce2", gs "#17182b", gs "#3b3f63",
      gs "#f8f8f2", gs "#3a4a8a", gs "#8bd5ca", gs "#7f849c", gs "#f9e2af",
      gs "#a6adc8", gs "#cdd6f4"⟩,
    ⟨gs "Catppuccin Mocha", gs "#1e1e2e", gs "#cdd6f4", gs "#181825",
      gs "#6c7086", gs "#f5e0dc", gs "#45475a", gs "#a6e3a1", gs "#7f849c",
      gs "#89b4fa", gs "#a6adc8", gs "#cdd6f4"⟩,
    ⟨gs "Catppuccin Latte", gs "#eff1f5", gs "#4c4f69", gs "#e6e9ef",
      gs "#9ca0b0", gs "#1e66f5", gs "#ccd0da", gs "#40a02b", gs "#8c8fa1",
      gs "#8839ef", gs "#7c7f93", gs "#4c4f69"⟩,
    ⟨gs "Gruvbox Dark", gs "#282828", gs "#ebdbb2", gs "#32302f",
      gs "#665c54", gs "#fbf1c7", gs "#504945", gs "#b8bb26", gs "#a89984",
      gs "#fabd2f", gs "#d5c4a1", gs "#ebdbb2"⟩,
    ⟨gs "Gruvbox Light", gs "#fbf1c7", gs "#3c3836", gs "#f2e5bc",
      gs "#bdae93", gs "#282828", gs "#d5c4a1", gs "#79740e", gs "#928374",
      gs "#af3a03", gs "#665c54", gs "#3c3836"⟩,
    ⟨gs "Tokyo Night", gs "#1a1b26", gs "#c0caf5", gs "#24283b",
      gs "#414868", gs "#c0caf5", gs "#33467c", gs "#9ece6a", gs "#565f89",
      gs "#7aa2f7", gs "#a9b1d6", gs "#c0caf5"⟩,
    ⟨gs "Nord", gs "#2e3440", gs "#d8dee9", gs "#3b4252", gs "#4c566a",
      gs "#eceff4", gs "#434c5e", gs "#a3be8c", gs "#81a1c1", gs "#88c0d0",
      gs "#d8dee9", gs "#e5e9f0"⟩,
    ⟨gs "Dracula", gs "#282a36", gs "#f8f8f2", gs "#303444", gs "#6272a4",
      gs "#f8f8f2", gs "#44475a", gs "#50fa7b", gs "#8be9fd", gs "#bd93f9",
      gs "#a4a7b5", gs "#f1fa8c"⟩,
    ⟨gs "Solarized Dark", gs "#002b36", gs "#93a1a1", gs "#073642",
      gs "#586e75", gs "#fdf6e3", gs "#005f73", gs "#859900", gs "#657b83",
      gs "#b58900", gs "#839496", gs "#93a1a1"⟩,
    ⟨gs "Solarized Light", gs "#fdf6e3", gs "#586e75", gs "#eee8d5",
      gs "#93a1a1", gs "#073642", gs "#d3cbb6", gs "#859900", gs "#93a1a1",
      gs "#b58900", gs "#657b83", gs "#586e75"⟩,
    ⟨gs "One Dark", gs "#282c34", gs "#abb2bf", gs "#21252b", gs "#5c6370",
      gs "#e6e6e6", gs "#3e4451", gs "#98c379", gs "#7f848e", gs "#61afef",
      gs "#c5c8cf", gs "#abb2bf"⟩,
    ⟨gs "Monokai Pro", gs "#2d2a2e", gs "#fcfcfa", gs "#36333a",
      gs "#727072", gs "#fffef9", gs "#5b595c", gs "#a9dc76", gs "#939293",
      gs "#ffd866", gs "#c1c0c0", gs "#fcfcfa"⟩,
    ⟨gs "Night Owl", gs "#011627", gs "#d6deeb", gs "#0b1f33", gs "#24496a",
      gs "#ffffff", gs "#1d3b53", gs "#addb67", gs "#7fdbca", gs "#82aaff",
      gs "#7e97b0", gs "#d6deeb"⟩,
    ⟨gs "Rose Pine", gs "#191724", gs "#e0def4", gs "#1f1d2e", gs "#6e6a86",
      gs "#faf4ed", gs "#403d52", gs "#9ccfd8", gs "#908caa", gs "#ebbcba",
      gs "#c4a7e7", gs "#e0def4"⟩,
    ⟨gs "Everforest Dark", gs "#2b3339", gs "#d3c6aa", gs "#323d43",
      gs "#4f585e", gs "#fdf6e3", gs "#475258", gs "#a7c080", gs "#7fbbb3",
      gs "#e69875", gs "#9da9a0", gs "#d3c6aa"⟩,
    ⟨gs "Kanagawa", gs "#1f1f28", gs "#dcd7ba", gs "#2a2a37", gs "#54546d",
      gs "#f2ecbc", gs "#363646", gs "#98bb6c", gs "#7e9cd8", gs "#ffa066",
      gs "#c8c093", gs "#dcd7ba"⟩,
    ⟨gs "Ayu Mirage", gs "#1f2430", gs "#cccac2", gs "#242b38", gs "#5c6773",
      gs "#ffffff", gs "#34455e", gs "#87d96c", gs "#80bfff", gs "#ffcc66",
      gs "#b8c2cc", gs "#cccac2"⟩,
    ⟨gs "Ice", gs "#0f172a", gs "#e2e8f0", gs "#1e293b", gs "#475569",
      gs "#f8fafc", gs "#334155", gs "#22d3ee", gs "#94a3b8", gs "#38bdf8",
      gs "#cbd5e1", gs "#e2e8f0"⟩,
    ⟨gs "Amber", gs "#1f1300", gs "#f8e7c2", gs "#2b1a00", gs "#7a4b00",
      gs "#1f1300", gs "#f59e0b", gs "#fbbf24", gs "#d6a54f", gs "#f59e0b",
      gs "#fcd34d", gs "#fde68a"⟩ ]

/-- The `createField*` constants. -/
def createFieldName : Int := 0

/-- `createFieldRoot`. -/
def createFieldRoot : Int := 1

/-- `createFieldTemplate`. -/
def createFieldTemplate : Int := 2

/-- `createFieldCustomWindows`. -/
def createFieldCustomWindows : Int := 3

/-- The `focusPane*` constants. -/
def focusPaneEnvironments : Int := 0

/-- `focusPaneWindows`. -/
def focusPaneWindows : Int := 1

/-- `focusPaneTemplates`. -/
def focusPaneTemplates : Int := 2

/-- The `templateField*` constants. -/
def templateFieldName : Int := 0

/-- `templateFieldWindows`. -/
def templateFieldWindows : Int := 1

/-- `ui.Model`: the whole application state.  Go maps become association
lists (`sessions` is used only for membership, `sessionWindows` for
lookup); the global lipgloss style variables written by
`applyThemeStyles` are render state and carry no information read back by
the state machine. -/
@[ext]
structure Model where
  width : Int := 0
  height : Int := 0
  environments : List Environment := []
  templates : List Template := []
  focusPane : Int := 0
  selectedEnv : Int := 0
  selectedWindow : Int := 0
  selectedTemplate : Int := 0
  sessions : List GoStr := []
  sessionWindows : List (GoStr × List GoStr) := []
  createMode : Bool := false
  createField : Int := 0
  createName : GoStr := []
  createRoot : GoStr := []
  createTemplate : Int := 0
  createCustom : GoStr := []
  templateMode : Bool := false
  templateField : Int := 0
  templateName : GoStr := []
  templateSpec : GoStr := []
  templateEditing : Bool := false
  templateOrigin : GoStr := []
  showShortcuts : Bool := false
  showThemePicker : Bool := false
  themeQuery : GoStr := []
  themePickerCursor : Int := 0
  killConfirm : GoStr := []
  deleteConfirm : GoStr := []
  templateDeleteConfirm : GoStr := []
  pendingSelect : GoStr := []
  pendingTemplateSelect : GoStr := []
  themes : List UiTheme := []
  themeIndex : Int := 0
  status : GoStr := []
  previewContent : GoStr := []
  previewSession : GoStr := []
  previewWindow : GoStr := []
  previewProcess : GoStr := []
deriving DecidableEq, Inhabited

/-- `tea.KeyMsg`: the key's `String()` form plus its rune payload. -/
structure KeyMsg where
  key : GoStr
  runes : GoStr := []
  alt : Bool := false
deriving DecidableEq, Inhabited

/-- The messages consumed by `Update`.  Result messages carry the fields
of the corresponding Go message structs, with `error` fields modelled as
`Option GoStr` (the error text). -/
inductive Msg where
  | windowSize (width height : Int)
  | key (k : KeyMsg)
  | configLoaded (m : ConfigLoadedMsg)
  | sessionsLoaded (names : List GoStr) (windows : List (GoStr × List GoStr))
      (err : Option GoStr)
  | attachReady (target : GoStr) (err : Option GoStr)
  | attachDone (err : Option GoStr)
  | environmentCreated (env : Environment) (sessionErr err : Option GoStr)
  | windowMoved (envName : GoStr) (direction : Int) (sessionErr err : Option GoStr)
  | templateSaved (name : GoStr) (edited : Bool) (err : Option GoStr)
  | templateDeleted (name : GoStr) (err : Option GoStr)
  | sessionKilled (session : GoStr) (err : Option GoStr)
  | environmentDeleted (environment session : GoStr) (killed : Bool)
      (err : Option GoStr)
  | themePersisted (name : GoStr) (err : Option GoStr)
  | panePreview (session window content process : GoStr)
deriving DecidableEq, Inhabited

/-- The asynchronous requests a state transition issues (the `tea.Cmd`
values, with `tea.Batch`/`nil` modelled as a list). -/
inductive Request where
  | quit
  | loadConfig
  | loadSessions
  | capturePane (session window : GoStr)
  | createEnv (name root : GoStr) (windows : List WindowTemplate)
  | saveTemplate (originalName name : GoStr) (windows : List WindowTemplate)
  | deleteTemplate (name : GoStr)
  | killSession (session : GoStr)
  | deleteEnvironment (name : GoStr)
  | moveWindow (envName windowName : GoStr) (direction : Int)
  | persistTheme (name : GoStr)
  | prepareAttach (env : Environment) (windowName : GoStr)
  | execAttach (target : GoStr)
deriving DecidableEq, Inhabited

/-- Go slice indexing `l[i]` with an `int` index.  Out-of-range indexing
panics in Go; every indexing site in the source is guarded (or reachable
only in states satisfying the selection invariant), so the model
totalizes it with a default value. -/
def goIndex (l : List α) (i : Int) (dflt : α) : α :=
  l.getD i.toNat dflt

/-- Go map lookup on the association-list model of `map[string][]string`. -/
def lookupAL (al : List (GoStr × List GoStr)) (key : GoStr) : Option (List GoStr) :=
  (al.find? fun kv => kv.1 == key).map (·.2)

/-- `Model.currentEnv`. -/
def currentEnv (m : Model) : Option Environment :=
  if m.environments = [] then none
  else if m.selectedEnv < 0 ∨ (m.environments.length : Int) ≤ m.selectedEnv then none
  else some (goIndex m.environments m.selectedEnv default)

/-- `Model.currentWindowNames`. -/
def currentWindowNames (m : Model) : List GoStr :=
  match currentEnv m with
  | none => []
  | some env =>
    let session := SessionName env.name
    match lookupAL m.sessionWindows session with
    | some windows => if windows.length > 0 then windows else WindowNames env
    | none => WindowNames env

/-- The `if idx < 0 then 0` / `if idx >= len then len-1` clamp the move
handlers apply, in that order. -/
def clampMove (len idx : Int) : Int :=
  let idx := if idx < 0 then 0 else idx
  if len ≤ idx then len - 1 else idx

/-- The `if idx >= len then len-1` / `if idx < 0 then 0` clamp
`normalizeSelection` applies, in that order. -/
def clampIdx (len idx : Int) : Int :=
  let idx := if len ≤ idx then len - 1 else idx
  if idx < 0 then 0 else idx

/-- `Model.moveEnv`. -/
def moveEnv (m : Model) (delta : Int) : Model :=
  if m.environments = [] then { m with selectedEnv := 0, selectedWindow := 0 }
  else
    { m with selectedEnv := clampMove (m.environments.length : Int) (m.selectedEnv + delta),
             selectedWindow := 0 }

/-- `Model.moveWindow`. -/
def moveWindow (m : Model) (delta : Int) : Model :=
  let windows := currentWindowNames m
  if windows = [] then { m with selectedWindow := 0 }
  else
    { m with selectedWindow := clampMove (windows.length : Int) (m.selectedWindow + delta) }

/-- `Model.moveTemplate`. -/
def moveTemplate (m : Model) (delta : Int) : Model :=
  if m.templates = [] then { m with selectedTemplate := 0 }
  else
    { m with selectedTemplate := clampMove (m.templates.length : Int) (m.selectedTemplate + delta) }

/-- `Model.toggleFocusPane`. -/
def toggleFocusPane (m : Model) : Model :=
  if m.focusPane = focusPaneEnvironments then { m with focusPane := focusPaneWindows }
  else if m.focusPane = focusPaneWindows then { m with focusPane := focusPaneTemplates }
  else { m with focusPane := focusPaneEnvironments }

/-- `parsePaneShortcut`. -/
def parsePaneShortcut (key : GoStr) : Option Int :=
  if key = gs "1" then some focusPaneEnvironments
  else if key = gs "2" then some focusPaneWindows
  else if key = gs "3" then some focusPaneTemplates
  else none

/-- `focusedPaneStatus`. -/
def focusedPaneStatus (pane : Int) : GoStr :=
  if pane = focusPaneEnvironments then gs "Focused [1] Sessions panel"
  else if pane = focusPaneWindows then gs "Focused [2] Windows panel"
  else if pane = focusPaneTemplates then gs "Focused [3] Templates panel"
  else gs "Focused panel"

/-- The environment- and window-selection stage of `Model.normalizeSelection`. -/
def normalizeSelectionEnvWin (m : Model) : Model :=
  if m.environments = [] then { m with selectedEnv := 0, selectedWindow := 0 }
  else
    let m := { m with selectedEnv := clampIdx (m.environments.length : Int) m.selectedEnv }
    let wins := currentWindowNames m
    if wins = [] then { m with selectedWindow := 0 }
    else
      { m with selectedWindow := clampIdx (wins.length : Int) m.selectedWindow }

/-- The template-selection stage of `Model.normalizeSelection`. -/
def normalizeSelectionTemplate (m : Model) : Model :=
  if m.templates = [] then { m with selectedTemplate := 0 }
  else
    { m with selectedTemplate := clampIdx (m.templates.length : Int) m.selectedTemplate }

/-- `Model.normalizeSelection`. -/
def normalizeSelection (m : Model) : Model :=
  normalizeSelectionTemplate (normalizeSelectionEnvWin m)

/-- `Model.currentTemplate`. -/
def currentTemplate (m : Model) : Option Template :=
  if m.templates = [] then none
  else if m.selectedTemplate < 0 ∨ (m.templates.length : Int) ≤ m.selectedTemplate then none
  else some (goIndex m.templates m.selectedTemplate default)

/-- `Model.filteredThemeIndices`: positions into the theme catalog whose
names match the query. -/
def filteredThemeIndices (m : Model) : List Nat :=
  let query := goToLower (trimSpace m.themeQuery)
  (List.range m.themes.length).filter fun idx =>
    query.isEmpty || containsSub query (goToLower (m.themes.getD idx default).name)

/-- `Model.normalizeThemePickerCursor`. -/
def normalizeThemePickerCursor (m : Model) : Model :=
  let indices := filteredThemeIndices m
  if indices = [] then { m with themePickerCursor := 0 }
  else
    { m with themePickerCursor := clampMove (indices.length : Int) m.themePickerCursor }

/-- `Model.applyCurrentTheme` (the `applyThemeStyles` call only writes the
global lipgloss style variables, which are render state). -/
def applyCurrentTheme (m : Model) : Model :=
  let m := if m.themes = [] then { m with themes := defaultThemes } else m
  if m.themes = [] then m
  else if m.themeIndex < 0 ∨ (m.themes.length : Int) ≤ m.themeIndex then { m with themeIndex := 0 }
  else m

/-- `Model.currentThemeName`. -/
def currentThemeName (m : Model) : GoStr :=
  if m.themes = [] then []
  else
    let idx := if m.themeIndex < 0 ∨ (m.themes.length : Int) ≤ m.themeIndex then 0 else m.themeIndex
    (goIndex m.themes idx default).name

/-- `Model.themeIndexByName`. -/
def themeIndexByName (m : Model) (name : GoStr) : Option Int :=
  let name := trimSpace name
  if name = [] then none
  else
    (findWithIdx (fun t => equalFold (trimSpace t.name) name) m.themes).map
      fun p => (p.1 : Int)

/-- `Model.openThemePicker`. -/
def openThemePicker (m : Model) : Model :=
  let m := { m with showThemePicker := true, showShortcuts := false,
                    themeQuery := [], themePickerCursor := 0 }
  match findWithIdx (fun ti => (ti : Int) == m.themeIndex) (filteredThemeIndices m) with
  | some (i, _) => { m with themePickerCursor := (i : Int) }
  | none => m

/-- `Model.updateThemePickerMode`. -/
def updateThemePickerMode (m : Model) (msg : KeyMsg) : Model × List Request :=
  let key := msg.key
  if key = gs "esc" then
    ({ m with showThemePicker := false, status := gs "Theme picker closed." }, [])
  else if key = gs "q" ∨ key = gs "ctrl+c" then (m, [.quit])
  else if key = gs "up" ∨ key = gs "k" then
    (normalizeThemePickerCursor { m with themePickerCursor := m.themePickerCursor - 1 }, [])
  else if key = gs "down" ∨ key = gs "j" then
    (normalizeThemePickerCursor { m with themePickerCursor := m.themePickerCursor + 1 }, [])
  else if key = gs "backspace" ∨ key = gs "ctrl+h" then
    (normalizeThemePickerCursor { m with themeQuery := trimLastRune m.themeQuery }, [])
  else if key = gs "ctrl+u" then
    (normalizeThemePickerCursor { m with themeQuery := [] }, [])
  else if key = gs "enter" then
    let indices := filteredThemeIndices m
    if indices = [] then
      ({ m with status := gs "No theme matches the search query." }, [])
    else
      let selectedThemeIndex := goIndex indices m.themePickerCursor 0
      let m := applyCurrentTheme { m with themeIndex := (selectedThemeIndex : Int) }
      let m := { m with showThemePicker := false }
      let themeName := currentThemeName m
      ({ m with status := gs "Theme: " ++ themeName }, [.persistTheme themeName])
  else if msg.runes ≠ [] ∧ msg.alt = false then
    (normalizeThemePickerCursor { m with themeQuery := m.themeQuery ++ msg.runes }, [])
  else (m, [])

/-- `NewModel`. -/
def newModel : Model :=
  applyCurrentTheme
    { sessions := [], sessionWindows := [], focusPane := focusPaneEnvironments,
      themes := defaultThemes, status := gs "Loading environments..." }

/-- `Model.captureCurrentWindowCmd`. -/
def captureCurrentWindowCmd (m : Model) : List Request :=
  match currentEnv m with
  | none => []
  | some env =>
    let session := SessionName env.name
    if m.sessions.contains session = false then []
    else
      let windows := currentWindowNames m
      if windows = [] ∨ (windows.length : Int) ≤ m.selectedWindow then []
      else [.capturePane session (goIndex windows m.selectedWindow [])]

/-- `Model.openCreateTemplateMode`. -/
def openCreateTemplateMode (m : Model) : Model :=
  { m with templateMode := true, createMode := false,
           templateField := templateFieldName, templateName := [],
           templateSpec := [], templateEditing := false, templateOrigin := [],
           status := gs "Template mode: name and window spec." }

/-- `Model.startEditTemplateMode`. -/
def startEditTemplateMode (m : Model) : Model × List Request :=
  match currentTemplate m with
  | none => ({ m with status := gs "No template selected." }, [])
  | some tpl =>
    ({ m with templateMode := true, createMode := false,
              templateField := templateFieldName, templateName := tpl.name,
              templateSpec := formatWindowSpec tpl.windows,
              templateEditing := true, templateOrigin := tpl.name,
              status := gs "Edit template mode." }, [])

/-- `Model.startDeleteTemplate`. -/
def startDeleteTemplate (m : Model) : Model × List Request :=
  match currentTemplate m with
  | none => ({ m with status := gs "No template selected." }, [])
  | some tpl =>
    let name := trimSpace tpl.name
    if name = [] then
      ({ m with status := gs "Selected template has empty name." }, [])
    else if m.templateDeleteConfirm ≠ name then
      ({ m with templateDeleteConfirm := name,
                status := gs "Press d again to delete template: " ++ name }, [])
    else
      ({ m with templateDeleteConfirm := [],
                status := gs "Deleting template..." }, [.deleteTemplate name])

/-- `Model.startAttachSelected`. -/
def startAttachSelected (m : Model) : Model × List Request :=
  match currentEnv m with
  | none => ({ m with status := gs "No environment selected." }, [])
  | some env =>
    let windows := currentWindowNames m
    let wName :=
      if windows.length > 0 ∧ m.selectedWindow < (windows.length : Int) then
        goIndex windows m.selectedWindow []
      else []
    ({ m with status := gs "Preparing tmux session..." }, [.prepareAttach env wName])

/-- `Model.startMoveWindow`. -/
def startMoveWindow (m : Model) (direction : Int) : Model × List Request :=
  match currentEnv m with
  | none => ({ m with status := gs "No environment selected." }, [])
  | some env =>
    let windows := currentWindowNames m
    if windows.length < 2 then
      ({ m with status := gs "Need at least two windows to reorder." }, [])
    else if m.selectedWindow < 0 ∨ (windows.length : Int) ≤ m.selectedWindow then
      ({ m with status := gs "No window selected." }, [])
    else if direction < 0 ∧ m.selectedWindow = 0 then
      ({ m with status := gs "Window is already first." }, [])
    else if 0 < direction ∧ m.selectedWindow = (windows.length : Int) - 1 then
      ({ m with status := gs "Window is already last." }, [])
    else
      let windowName := goIndex windows m.selectedWindow []
      ({ m with status := gs "Reordering window..." },
       [.moveWindow env.name windowName direction])

/-- `Model.startKillSession`. -/
def startKillSession (m : Model) : Model × List Request :=
  match currentEnv m with
  | none => ({ m with status := gs "No environment selected." }, [])
  | some env =>
    let session := SessionName env.name
    if m.sessions.contains session = false then
      ({ m with status := gs "Session is not running: " ++ session,
                killConfirm := [] }, [])
    else if m.killConfirm ≠ session then
      ({ m with killConfirm := session,
                status := gs "Press x again to kill session: " ++ session }, [])
    else
      ({ m with killConfirm := [], status := gs "Killing session..." },
       [.killSession session])

/-- `Model.startDeleteEnvironment`. -/
def startDeleteEnvironment (m : Model) : Model × List Request :=
  match currentEnv m with
  | none => ({ m with status := gs "No environment selected." }, [])
  | some env =>
    let name := trimSpace env.name
    if name = [] then
      ({ m with status := gs "Selected environment has empty name." }, [])
    else if m.deleteConfirm ≠ name then
      ({ m with deleteConfirm := name,
                status := gs "Press d again to delete environment: " ++ name }, [])
    else
      ({ m with deleteConfirm := [], status := gs "Deleting environment..." },
       [.deleteEnvironment name])

/-- `Model.normalizeCreateTemplate`. -/
def normalizeCreateTemplate (m : Model) : Model :=
  if m.templates = [] then { m with createTemplate := 0 }
  else
    let total := (m.templates.length : Int) + 1
    let ct := if m.createTemplate < 0 then 0 else m.createTemplate
    let ct := if total ≤ ct then 0 else ct
    { m with createTemplate := ct }

/-- `Model.defaultTemplateIndex`. -/
def defaultTemplateIndex (m : Model) : Int :=
  match findWithIdx (fun t => equalFold t.name (gs "default")) m.templates with
  | some (i, _) => (i : Int)
  | none => 0

/-- `Model.isCustomTemplateSelected`. -/
def isCustomTemplateSelected (m : Model) : Bool :=
  if m.templates = [] then true
  else decide ((m.templates.length : Int) ≤ m.createTemplate)

/-- `Model.createTemplateOptions`. -/
def createTemplateOptions (m : Model) : List GoStr :=
  m.templates.map (·.name) ++ [gs "custom"]

/-- `Model.moveCreateTemplate`. -/
def moveCreateTemplate (m : Model) (delta : Int) : Model :=
  let options := createTemplateOptions m
  if options = [] then { m with createTemplate := 0 }
  else
    let ct := m.createTemplate + delta
    let ct := if ct < 0 then (options.length : Int) - 1 else ct
    let ct := if (options.length : Int) ≤ ct then 0 else ct
    let m := { m with createTemplate := ct }
    if isCustomTemplateSelected m = false ∧ m.createField = createFieldCustomWindows then
      { m with createField := createFieldTemplate }
    else m

/-- `Model.createFieldOrder`. -/
def createFieldOrder (m : Model) : List Int :=
  [createFieldName, createFieldRoot, createFieldTemplate] ++
    (if isCustomTemplateSelected m then [createFieldCustomWindows] else [])

/-- `Model.shiftCreateField`. -/
def shiftCreateField (m : Model) (direction : Int) : Model :=
  let order := createFieldOrder m
  if order = [] then { m with createField := createFieldName }
  else
    let current : Int :=
      match findWithIdx (fun f => f == m.createField) order with
      | some (i, _) => (i : Int)
      | none => 0
    let current := current + direction
    let current := if current < 0 then (order.length : Int) - 1 else current
    let current := if (order.length : Int) ≤ current then 0 else current
    { m with createField := goIndex order current 0 }

/-- `Model.isCreateLastField`. -/
def isCreateLastField (m : Model) : Bool :=
  let order := createFieldOrder m
  if order = [] then true
  else m.createField == order.getLastD 0

/-- `Model.appendCreateField`. -/
def appendCreateField (m : Model) (s : GoStr) : Model :=
  if m.createField = createFieldName then { m with createName := m.createName ++ s }
  else if m.createField = createFieldRoot then { m with createRoot := m.createRoot ++ s }
  else if m.createField = createFieldCustomWindows then { m with createCustom := m.createCustom ++ s }
  else m

/-- `Model.backspaceCreateField`. -/
def backspaceCreateField (m : Model) : Model :=
  if m.createField = createFieldName then { m with createName := trimLastRune m.createName }
  else if m.createField = createFieldRoot then { m with createRoot := trimLastRune m.createRoot }
  else if m.createField = createFieldCustomWindows then { m with createCustom := trimLastRune m.createCustom }
  else m

/-- `Model.clearCreateField`. -/
def clearCreateField (m : Model) : Model :=
  if m.createField = createFieldName then { m with createName := [] }
  else if m.createField = createFieldRoot then { m with createRoot := [] }
  else if m.createField = createFieldCustomWindows then { m with createCustom := [] }
  else m

/-- The Go error text of a codec error (`%q` is modelled as plain double
quotes; the entries at issue contain no characters `%q` would escape). -/
def winErrText : WinErr → GoStr
  | .atLeastOneRequired => gs "at least one window is required"
  | .emptyEntry => gs "empty window entry"
  | .emptyNameIn e => gs "window name cannot be empty in " ++ '"' :: e ++ ['"']
  | .emptyNameBare => gs "window name cannot be empty"
  | .invalidEntry e => gs "invalid window entry " ++ '"' :: e ++ ['"']

/-- `Model.resolveCreateWindows` (error as its Go message text). -/
def resolveCreateWindows (m : Model) : Except GoStr (List WindowTemplate) :=
  if isCustomTemplateSelected m then
    (parseWindowSpec m.createCustom).mapError winErrText
  else if m.createTemplate < 0 ∨ (m.templates.length : Int) ≤ m.createTemplate then
    .error (gs "selected template is invalid")
  else .ok (cloneWindowTemplates (goIndex m.templates m.createTemplate default).windows)

/-- `Model.updateCreateMode`. -/
def updateCreateMode (m : Model) (msg : KeyMsg) : Model × List Request :=
  let key := msg.key
  if key = gs "ctrl+c" then (m, [.quit])
  else if key = gs "esc" then
    ({ m with createMode := false, createField := createFieldName,
              createName := [], createRoot := [],
              createTemplate := defaultTemplateIndex m, createCustom := [],
              status := gs "Create canceled." }, [])
  else if key = gs "tab" ∨ key = gs "down" then (shiftCreateField m 1, [])
  else if key = gs "shift+tab" ∨ key = gs "up" then (shiftCreateField m (-1), [])
  else if key = gs "left" then
    (if m.createField = createFieldTemplate then moveCreateTemplate m (-1) else m, [])
  else if key = gs "right" then
    (if m.createField = createFieldTemplate then moveCreateTemplate m 1 else m, [])
  else if key = gs "backspace" ∨ key = gs "ctrl+h" then (backspaceCreateField m, [])
  else if key = gs "ctrl+u" then (clearCreateField m, [])
  else if key = gs "enter" then
    if isCreateLastField m = false then (shiftCreateField m 1, [])
    else
      let name := trimSpace m.createName
      let root := trimSpace m.createRoot
      if name = [] ∨ root = [] then
        if name = [] then
          ({ m with createField := createFieldName, status := gs "Name is required." }, [])
        else
          ({ m with createField := createFieldRoot, status := gs "Root path is required." }, [])
      else
        match resolveCreateWindows m with
        | .error e =>
          let m := { m with status := gs "Template error: " ++ e }
          (if isCustomTemplateSelected m then { m with createField := createFieldCustomWindows } else m, [])
        | .ok windows =>
          ({ m with status := gs "Creating environment and tmux session..." },
           [.createEnv name root windows])
  else if msg.runes ≠ [] ∧ msg.alt = false then (appendCreateField m msg.runes, [])
  else (m, [])

/-- `Model.appendTemplateField`. -/
def appendTemplateField (m : Model) (s : GoStr) : Model :=
  if m.templateField = templateFieldName then { m with templateName := m.templateName ++ s }
  else { m with templateSpec := m.templateSpec ++ s }

/-- `Model.backspaceTemplateField`. -/
def backspaceTemplateField (m : Model) : Model :=
  if m.templateField = templateFieldName then { m with templateName := trimLastRune m.templateName }
  else { m with templateSpec := trimLastRune m.templateSpec }

/-- `Model.clearTemplateField`. -/
def clearTemplateField (m : Model) : Model :=
  if m.templateField = templateFieldName then { m with templateName := [] }
  else { m with templateSpec := [] }

/-- `Model.updateTemplateMode`. -/
def updateTemplateMode (m : Model) (msg : KeyMsg) : Model × List Request :=
  let key := msg.key
  if key = gs "ctrl+c" then (m, [.quit])
  else if key = gs "esc" then
    ({ m with templateMode := false, templateEditing := false,
              templateOrigin := [], templateField := templateFieldName,
              templateName := [], templateSpec := [],
              status := gs "Template mode canceled." }, [])
  else if key = gs "tab" ∨ key = gs "down" ∨ key = gs "up" ∨ key = gs "shift+tab" then
    (if m.templateField = templateFieldName then { m with templateField := templateFieldWindows }
     else { m with templateField := templateFieldName }, [])
  else if key = gs "backspace" ∨ key = gs "ctrl+h" then (backspaceTemplateField m, [])
  else if key = gs "ctrl+u" then (clearTemplateField m, [])
  else if key = gs "enter" then
    if m.templateField = templateFieldName then
      ({ m with templateField := templateFieldWindows }, [])
    else
      let name := trimSpace m.templateName
      if name = [] then
        ({ m with templateField := templateFieldName,
                  status := gs "Template name is required." }, [])
      else
        match parseWindowSpec m.templateSpec with
        | .error err =>
          ({ m with templateField := templateFieldWindows,
                    status := gs "Template windows error: " ++ winErrText err }, [])
        | .ok windows =>
          let origin := if m.templateEditing then m.templateOrigin else []
          ({ m with status := gs "Saving template..." },
           [.saveTemplate origin name windows])
  else if msg.runes ≠ [] ∧ msg.alt = false then (appendTemplateField m msg.runes, [])
  else (m, [])

/-- `Model.updateEnvironmentPanelKey`. -/
def updateEnvironmentPanelKey (m : Model) (key : GoStr) : Model × List Request :=
  if key = gs "up" ∨ key = gs "k" then
    let m := moveEnv m (-1); (m, captureCurrentWindowCmd m)
  else if key = gs "down" ∨ key = gs "j" then
    let m := moveEnv m 1; (m, captureCurrentWindowCmd m)
  else if key = gs "a" then
    ({ m with createMode := true, templateMode := false,
              createField := createFieldName, createName := [], createRoot := [],
              createTemplate := defaultTemplateIndex m, createCustom := [],
              status := gs "Create mode: enter environment name and root path." }, [])
  else if key = gs "t" then
    ({ m with status := gs "Switch to [3] Templates panel for template actions" }, [])
  else if key = gs "x" then startKillSession m
  else if key = gs "d" then startDeleteEnvironment m
  else if key = gs "left" ∨ key = gs "right" ∨ key = gs "h" ∨ key = gs "l" then
    ({ m with status := gs "[1] Sessions panel focused" }, [])
  else if key = gs "H" ∨ key = gs "L" then
    ({ m with status := gs "Window reorder is available in [2] Windows panel" }, [])
  else if key = gs "enter" then startAttachSelected m
  else (m, [])

/-- `Model.updateWindowPanelKey`. -/
def updateWindowPanelKey (m : Model) (key : GoStr) : Model × List Request :=
  if key = gs "left" ∨ key = gs "h" ∨ key = gs "up" ∨ key = gs "k" then
    let m := moveWindow m (-1); (m, captureCurrentWindowCmd m)
  else if key = gs "right" ∨ key = gs "l" ∨ key = gs "down" ∨ key = gs "j" then
    let m := moveWindow m 1; (m, captureCurrentWindowCmd m)
  else if key = gs "x" ∨ key = gs "d" then
    ({ m with status := gs "Switch to [1] Sessions panel for this action" }, [])
  else if key = gs "a" then
    ({ m with status := gs "Switch to [1] Sessions panel to create environments" }, [])
  else if key = gs "t" ∨ key = gs "e" ∨ key = gs "c" then
    ({ m with status := gs "Switch to [3] Templates panel for template actions" }, [])
  else if key = gs "H" then startMoveWindow m (-1)
  else if key = gs "L" then startMoveWindow m 1
  else if key = gs "enter" then startAttachSelected m
  else (m, [])

/-- `Model.updateTemplatesPanelKey`. -/
def updateTemplatesPanelKey (m : Model) (key : GoStr) : Model × List Request :=
  if key = gs "up" ∨ key = gs "k" then (moveTemplate m (-1), [])
  else if key = gs "down" ∨ key = gs "j" then (moveTemplate m 1, [])
  else if key = gs "a" then (openCreateTemplateMode m, [])
  else if key = gs "e" ∨ key = gs "enter" then startEditTemplateMode m
  else if key = gs "d" then startDeleteTemplate m
  else if key = gs "left" ∨ key = gs "right" ∨ key = gs "h" ∨ key = gs "l" then
    ({ m with status := gs "[3] Templates panel focused" }, [])
  else if key = gs "x" then
    ({ m with status := gs "Session kill is available in [1] Sessions panel" }, [])
  else (m, [])

/-- The stale-confirm clearing at the top of the normal-mode key region. -/
def clearConfirms (m : Model) (key : GoStr) : Model :=
  let m := if key ≠ gs "x" then { m with killConfirm := [] } else m
  if key ≠ gs "d" then { m with deleteConfirm := [], templateDeleteConfirm := [] } else m

/-- The dispatch part of the normal-mode key region: global keys, then the
focused panel's keys. -/
def dispatchNormalKey (m : Model) (key : GoStr) : Model × List Request :=
  match parsePaneShortcut key with
  | some pane =>
    let m := { m with focusPane := pane, status := focusedPaneStatus pane }
    (m, captureCurrentWindowCmd m)
  | none =>
    if key = gs "q" ∨ key = gs "ctrl+c" then (m, [.quit])
    else if key = gs "tab" then
      let m := toggleFocusPane m
      let m := { m with status := focusedPaneStatus m.focusPane }
      (m, captureCurrentWindowCmd m)
    else if key = gs "r" then
      ({ m with status := gs "Refreshing..." }, [.loadConfig, .loadSessions])
    else if m.focusPane = focusPaneEnvironments then updateEnvironmentPanelKey m key
    else if m.focusPane = focusPaneWindows then updateWindowPanelKey m key
    else updateTemplatesPanelKey m key

/-- The normal-mode region of the `tea.KeyMsg` case: clear stale confirm
state, then dispatch global keys and the focused panel's keys. -/
def updateNormalKey (m : Model) (key : GoStr) : Model × List Request :=
  dispatchNormalKey (clearConfirms m key) key

/-- The `tea.KeyMsg` case of `Update`. -/
def updateKey (m : Model) (msg : KeyMsg) : Model × List Request :=
  let key := msg.key
  if key = gs "ctrl+t" then
    if m.showThemePicker then
      ({ m with showThemePicker := false, status := gs "Theme picker closed." }, [])
    else
      let m := openThemePicker m
      ({ m with status := gs "Theme picker open. Type to filter, Enter to apply." }, [])
  else if key = gs "?" then
    let m := { m with showThemePicker := false, showShortcuts := !m.showShortcuts }
    if m.showShortcuts then
      ({ m with status := gs "Shortcuts open. Press ? or Esc to close." }, [])
    else ({ m with status := gs "Shortcuts closed." }, [])
  else if m.showThemePicker then updateThemePickerMode m msg
  else if m.showShortcuts then
    if key = gs "esc" then
      ({ m with showShortcuts := false, status := gs "Shortcuts closed." }, [])
    else if key = gs "q" ∨ key = gs "ctrl+c" then (m, [.quit])
    else (m, [])
  else if m.createMode then updateCreateMode m msg
  else if m.templateMode then updateTemplateMode m msg
  else updateNormalKey m key

/-- The list-install and theme-resolution steps of the `configLoadedMsg`
handler. -/
def configLoadedTheme (m : Model) (msg : ConfigLoadedMsg) : Model :=
  let m := { m with environments := msg.envs, templates := msg.templates }
  (themeIndexByName m msg.theme).elim m fun idx =>
    if idx ≠ m.themeIndex then applyCurrentTheme { m with themeIndex := idx } else m

/-- The pending environment-selection step of the `configLoadedMsg` handler. -/
def applyPendingSelect (m : Model) : Model :=
  if trimSpace m.pendingSelect ≠ [] then
    let m' :=
      (findWithIdx (fun e => equalFold e.name m.pendingSelect) m.environments).elim m
        fun p => { m with selectedEnv := (p.1 : Int), selectedWindow := 0 }
    { m' with pendingSelect := [] }
  else m

/-- The pending template-selection step of the `configLoadedMsg` handler. -/
def applyPendingTemplateSelect (m : Model) : Model :=
  if trimSpace m.pendingTemplateSelect ≠ [] then
    let m' :=
      (findWithIdx (fun t => equalFold t.name m.pendingTemplateSelect) m.templates).elim m
        fun p => { m with selectedTemplate := (p.1 : Int) }
    { m' with pendingTemplateSelect := [] }
  else m

/-- The pre-`normalizeSelection` steps of the `configLoadedMsg` handler:
install the loaded lists, resolve the theme by name, clamp the
create-template choice and apply any pending selections. -/
def configLoadedPre (m : Model) (msg : ConfigLoadedMsg) : Model :=
  applyPendingTemplateSelect
    (applyPendingSelect (normalizeCreateTemplate (configLoadedTheme m msg)))

/-- The status-line step of the `configLoadedMsg` handler. -/
def configLoadedStatus (cfgPath : Option GoStr) (m : Model) : Model :=
  if m.environments = [] then
    match cfgPath with
    | none => { m with status := gs "No environments configured." }
    | some path => { m with status := gs "No environments configured in " ++ path }
  else if strStartsWith m.status (gs "Loading") ||
          strStartsWith m.status (gs "Refreshing") ||
          strStartsWith m.status (gs "No environments configured") then
    { m with status := gs "Ready. Enter attaches, Ctrl-b d detaches back here." }
  else m

/-- The `configLoadedMsg` case of `Update`.  `cfgPath` models the
OS-dependent `config.ConfigFilePath()` result (`none` = error). -/
def updateConfigLoaded (cfgPath : Option GoStr) (m : Model)
    (msg : ConfigLoadedMsg) : Model × List Request :=
  match msg.err with
  | some e => ({ m with status := gs "Config error: " ++ e }, [])
  | none =>
    (configLoadedStatus cfgPath (normalizeSelection (configLoadedPre m msg)), [])

/-- `Model.Update`: one step of the state machine. -/
def update (cfgPath : Option GoStr) (m : Model) : Msg → Model × List Request
  | .windowSize w h => ({ m with width := w, height := h }, [])
  | .key msg => updateKey m msg
  | .configLoaded msg => updateConfigLoaded cfgPath m msg
  | .sessionsLoaded names windows err =>
    match err with
    | some e => ({ m with status := gs "Tmux error: " ++ e }, [])
    | none =>
      let m := { m with sessions := names, sessionWindows := windows }
      let m := normalizeSelection m
      (m, captureCurrentWindowCmd m)
  | .panePreview session window content process =>
    ({ m with previewContent := content, previewSession := session,
              previewWindow := window, previewProcess := process }, [])
  | .themePersisted name err =>
    match err with
    | some e => ({ m with status := gs "Theme applied but not saved: " ++ e }, [])
    | none => ({ m with status := gs "Theme: " ++ name }, [])
  | .attachReady target err =>
    match err with
    | some e => ({ m with status := gs "Attach failed: " ++ e }, [])
    | none =>
      ({ m with status := gs "Attached. Detach with Ctrl-b d to return." },
       [.execAttach target])
  | .attachDone err =>
    match err with
    | some e =>
      ({ m with status := gs "Returned from tmux with error: " ++ e }, [.loadSessions])
    | none => ({ m with status := gs "Returned from tmux." }, [.loadSessions])
  | .environmentCreated env sessionErr err =>
    match err with
    | some e => ({ m with status := gs "Create failed: " ++ e }, [])
    | none =>
      let m := { m with createMode := false, createName := [], createRoot := [],
                        createField := createFieldName,
                        createTemplate := defaultTemplateIndex m,
                        createCustom := [], pendingSelect := env.name }
      let m :=
        match sessionErr with
        | some e =>
          { m with status := gs "Environment saved, but tmux session was not created: " ++ e }
        | none =>
          { m with status := gs "Environment and tmux session created. Press Enter to attach." }
      (m, [.loadConfig, .loadSessions])
  | .windowMoved envName direction sessionErr err =>
    match err with
    | some e => ({ m with status := gs "Reorder failed: " ++ e }, [])
    | none =>
      let m := if direction < 0 then moveWindow m (-1) else moveWindow m 1
      let m := { m with pendingSelect := envName }
      let m :=
        match sessionErr with
        | some e =>
          { m with status := gs "Template order saved, but live tmux reorder failed: " ++ e }
        | none =>
          if direction < 0 then { m with status := gs "Window moved left." }
          else { m with status := gs "Window moved right." }
      (m, [.loadConfig, .loadSessions])
  | .templateSaved name edited err =>
    match err with
    | some e => ({ m with status := gs "Template save failed: " ++ e }, [])
    | none =>
      let m := { m with templateMode := false, templateEditing := false,
                        templateOrigin := [], templateField := templateFieldName,
                        templateName := [], templateSpec := [],
                        pendingTemplateSelect := name }
      let m :=
        if edited then { m with status := gs "Template updated: " ++ name }
        else { m with status := gs "Template created: " ++ name }
      (m, [.loadConfig])
  | .templateDeleted name err =>
    match err with
    | some e => ({ m with status := gs "Template delete failed: " ++ e }, [])
    | none =>
      ({ m with templateDeleteConfirm := [],
                status := gs "Template deleted: " ++ name }, [.loadConfig])
  | .sessionKilled session err =>
    match err with
    | some e => ({ m with status := gs "Kill failed: " ++ e }, [])
    | none =>
      ({ m with status := gs "Killed session: " ++ session, killConfirm := [] },
       [.loadSessions])
  | .environmentDeleted environment session killed err =>
    match err with
    | some e => ({ m with status := gs "Delete failed: " ++ e }, [])
    | none =>
      let m := { m with deleteConfirm := [] }
      let m :=
        if killed then
          { m with status := gs "Deleted environment " ++ environment ++
                             gs " and killed session " ++ session }
        else { m with status := gs "Deleted environment " ++ environment }
      (m, [.loadConfig, .loadSessions])

/-! ## Claim-side specification functions -/

/-- Session-name derivation as the specification words it: `"ide-"` plus
the trimmed name lowercased with spaces replaced by hyphens, or `"ide"`
for an empty or all-whitespace name. -/
def sessionNameSpec (envName : GoStr) : GoStr :=
  if trimSpace envName = [] then gs "ide"
  else gs "ide-" ++ replaceChar ' ' '-' (goToLower (trimSpace envName))

/-- The delimiter-freedom condition under which the window-spec codec
round-trips: a nonempty trimmed name free of `=`, `|`, `;`, `,`; a
trimmed command free of `|`, `;`, `,`; a trimmed directory free of
`;`, `,`. -/
def windowRoundTripSafe (w : WindowTemplate) : Bool :=
  let n := trimSpace w.name
  let c := trimSpace w.cmd
  let d := trimSpace w.cwd
  !n.isEmpty &&
    n.all (fun ch => ch ≠ '=' && ch ≠ '|' && ch ≠ ';' && ch ≠ ',') &&
    c.all (fun ch => ch ≠ '|' && ch ≠ ';' && ch ≠ ',') &&
    d.all (fun ch => ch ≠ ';' && ch ≠ ',')

/-- The entry text `fmtEntry` emits for a window whose trimmed name is
nonempty (the `some` payload of `fmtEntry`). -/
def entryOfWindow (w : WindowTemplate) : GoStr :=
  let n := trimSpace w.name
  let c := trimSpace w.cmd
  let d := trimSpace w.cwd
  if c ≠ [] ∨ d ≠ [] then n ++ '=' :: c ++ (if d ≠ [] then '|' :: d else [])
  else n

/-- The selection invariant of claim C10: every selection index is 0 on an
empty list and otherwise within bounds of its list. -/
def SelInv (m : Model) : Prop :=
  (m.environments = [] → m.selectedEnv = 0) ∧
  (m.environments ≠ [] →
    0 ≤ m.selectedEnv ∧ m.selectedEnv < (m.environments.length : Int)) ∧
  (currentWindowNames m = [] → m.selectedWindow = 0) ∧
  (currentWindowNames m ≠ [] →
    0 ≤ m.selectedWindow ∧ m.selectedWindow < ((currentWindowNames m).length : Int)) ∧
  (m.templates = [] → m.selectedTemplate = 0) ∧
  (m.templates ≠ [] →
    0 ≤ m.selectedTemplate ∧ m.selectedTemplate < (m.templates.length : Int)) ∧
  (filteredThemeIndices m = [] → m.themePickerCursor = 0) ∧
  (filteredThemeIndices m ≠ [] →
    0 ≤ m.themePickerCursor ∧ m.themePickerCursor < ((filteredThemeIndices m).length : Int))

instance (m : Model) : Decidable (SelInv m) := by
  unfold SelInv; infer_instance

/-- The tuple of model fields the selection invariant depends on. -/
def selFields (m : Model) :
    List Environment × Int × Int × Int × List (GoStr × List GoStr) ×
      List Template × List UiTheme × GoStr × Int :=
  (m.environments, m.selectedEnv, m.selectedWindow, m.selectedTemplate,
   m.sessionWindows, m.templates, m.themes, m.themeQuery, m.themePickerCursor)

/-- States of the application reachable from the initial model by
processing any sequence of messages. -/
inductive Reachable (cfgPath : Option GoStr) : Model → Prop where
  | init : Reachable cfgPath newModel
  | step {m : Model} (h : Reachable cfgPath m) (msg : Msg) :
      Reachable cfgPath (update cfgPath m msg).1

/-- The environment-selection clamp `normalizeSelection` computes. -/
def envClamp (x : Model) : Int :=
  if x.environments = [] then 0
  else clampIdx (x.environments.length : Int) x.selectedEnv

/-- The template-selection clamp `normalizeSelection` computes. -/
def tplClamp (x : Model) : Int :=
  if x.templates = [] then 0
  else clampIdx (x.templates.length : Int) x.selectedTemplate

/-- The window-selection clamp `normalizeSelection` computes. -/
def winClamp (x : Model) : Int :=
  if x.environments = [] then 0
  else
    let wins := currentWindowNames { x with selectedEnv := envClamp x }
    if wins = [] then 0 else clampIdx (wins.length : Int) x.selectedWindow

/-- A concrete invariant-satisfying state for the load-commutation claim. -/
def c5EnvA : Environment :=
  { name := gs "a", root := gs "/r", windows := [{ name := gs "w" }] }

/-- The environment the config-load result replaces `c5EnvA` with. -/
def c5EnvB : Environment :=
  { name := gs "b", root := gs "/r",
    windows := [{ name := gs "w1" }, { name := gs "w2" }] }

/-- Starting state for the load-commutation counterexample. -/
def c5Model : Model :=
  { environments := [c5EnvA], selectedWindow := 3,
    sessionWindows := [(gs "ide-a", [gs "n1", gs "n2", gs "n3", gs "n4"])],
    status := gs "Ready" }

/-- The config-load result used by the load-commutation counterexample. -/
def c5Cfg : ConfigLoadedMsg := { envs := [c5EnvB] }

/-- The session names of the session-load result. -/
def c5Names : List GoStr := [gs "ide-a", gs "ide-b"]

/-- The per-session window lists of the session-load result. -/
def c5Windows : List (GoStr × List GoStr) :=
  [(gs "ide-a", [gs "a1", gs "a2", gs "a3", gs "a4", gs "a5",
                 gs "a6", gs "a7", gs "a8", gs "a9", gs "a10"]),
   (gs "ide-b", [gs "b1", gs "b2", gs "b3", gs "b4", gs "b5",
                 gs "b6", gs "b7", gs "b8", gs "b9", gs "b10"])]

/-- A concrete environment used to exercise the delete-confirmation flow. -/
def c2Env : Environment :=
  { name := gs "staging", root := gs "/s", windows := [] }

/-- A concrete single-environment state in Normal mode with the
Environments panel focused and `c2Env` selected. -/
def c2Model : Model :=
  { environments := [c2Env], status := gs "Ready" }

/-! ## String-model lemmas -/

theorem goIsSpace_goLowerChar (c : Char) :
    goIsSpace (goLowerChar c) = goIsSpace c := by
  unfold goLowerChar
  cases hf : lowerTable.find? (fun p => p.1 == c) with
  | none => rfl
  | some p =>
    have hmem : p ∈ lowerTable := List.mem_of_find?_eq_some hf
    have hc : p.1 = c := by simpa using List.find?_some hf
    have hprop : ∀ q ∈ lowerTable, goIsSpace q.2 = false ∧ goIsSpace q.1 = false := by
      decide
    rw [← hc, (hprop p hmem).1, (hprop p hmem).2]

theorem head?_dropWhile_space {l : GoStr} {a : Char}
    (h : (l.dropWhile goIsSpace).head? = some a) : goIsSpace a = false := by
  have := List.head?_dropWhile_not goIsSpace l
  rw [h] at this
  exact this

theorem dropWhile_eq_self_of_head {p : α → Bool} {l : List α}
    (h : ∀ a, l.head? = some a → p a = false) : l.dropWhile p = l := by
  cases l with
  | nil => rfl
  | cons a t =>
    have : p a = false := h a rfl
    simp [List.dropWhile_cons, this]

theorem getLast?_dropWhile_of_ne_nil {p : α → Bool} {l : List α}
    (h : l.dropWhile p ≠ []) : (l.dropWhile p).getLast? = l.getLast? := by
  induction l with
  | nil => simp at h
  | cons a t ih =>
    by_cases hp : p a
    · rw [List.dropWhile_cons_of_pos hp] at h ⊢
      have ht : t ≠ [] := by
        intro he; subst he; simp at h
      rw [ih h]
      cases t with
      | nil => exact absurd rfl ht
      | cons b t' => simp
    · rw [List.dropWhile_cons_of_neg hp]

theorem trimSpace_head? {l : GoStr} {a : Char}
    (h : (trimSpace l).head? = some a) : goIsSpace a = false := by
  unfold trimSpace at h
  rw [List.head?_reverse] at h
  have hne : (l.dropWhile goIsSpace).reverse.dropWhile goIsSpace ≠ [] := by
    intro he; rw [he] at h; simp at h
  rw [getLast?_dropWhile_of_ne_nil hne, List.getLast?_reverse] at h
  exact head?_dropWhile_space h

theorem trimSpace_getLast? {l : GoStr} {a : Char}
    (h : (trimSpace l).getLast? = some a) : goIsSpace a = false := by
  unfold trimSpace at h
  rw [List.getLast?_reverse] at h
  exact head?_dropWhile_space h

theorem trimSpace_eq_self {l : GoStr}
    (h1 : ∀ a, l.head? = some a → goIsSpace a = false)
    (h2 : ∀ a, l.getLast? = some a → goIsSpace a = false) :
    trimSpace l = l := by
  unfold trimSpace
  rw [dropWhile_eq_self_of_head h1]
  rw [dropWhile_eq_self_of_head (by simpa using h2)]
  exact l.reverse_reverse

theorem trimSpace_trimSpace (l : GoStr) :
    trimSpace (trimSpace l) = trimSpace l :=
  trimSpace_eq_self (fun _ h => trimSpace_head? h) (fun _ h => trimSpace_getLast? h)

theorem mem_of_mem_trimSpace {l : GoStr} {a : Char} (h : a ∈ trimSpace l) :
    a ∈ l := by
  unfold trimSpace at h
  rw [List.mem_reverse] at h
  have h2 := (List.dropWhile_sublist goIsSpace).subset h
  rw [List.mem_reverse] at h2
  exact (List.dropWhile_sublist goIsSpace).subset h2

theorem count_dropWhile_space {l : GoStr} {c : Char} (hc : goIsSpace c = false) :
    (l.dropWhile goIsSpace).count c = l.count c := by
  induction l with
  | nil => rfl
  | cons a t ih =>
    by_cases hp : goIsSpace a
    · rw [List.dropWhile_cons_of_pos hp, ih]
      have hne : a ≠ c := by
        intro he; subst he; rw [hp] at hc; cases hc
      rw [List.count_cons]
      simp [hne]
    · rw [List.dropWhile_cons_of_neg hp]

theorem count_trimSpace {l : GoStr} {c : Char} (hc : goIsSpace c = false) :
    (trimSpace l).count c = l.count c := by
  unfold trimSpace
  rw [List.count_reverse, count_dropWhile_space hc, List.count_reverse,
    count_dropWhile_space hc]

theorem trimSpace_goToLower (l : GoStr) :
    trimSpace (goToLower l) = goToLower (trimSpace l) := by
  unfold trimSpace goToLower
  have hcomp : (goIsSpace ∘ goLowerChar) = goIsSpace := by
    funext c; exact goIsSpace_goLowerChar c
  rw [List.dropWhile_map, hcomp, ← List.map_reverse, List.dropWhile_map, hcomp,
    ← List.map_reverse]

theorem containsChar_iff {l : GoStr} {c : Char} :
    containsChar l c = true ↔ c ∈ l := by
  simp [containsChar, List.contains]

theorem containsChar_false {l : GoStr} {c : Char} :
    containsChar l c = false ↔ c ∉ l := by
  rw [← Bool.not_eq_true, containsChar_iff]

theorem splitOnChar_ne_nil (c : Char) (l : GoStr) : splitOnChar c l ≠ [] := by
  cases l with
  | nil => simp [splitOnChar]
  | cons x xs =>
    unfold splitOnChar
    by_cases h : x = c
    · simp [h]
    · simp only [if_neg h]
      cases splitOnChar c xs <;> simp

theorem splitOnChar_cons_self (c : Char) (xs : GoStr) :
    splitOnChar c (c :: xs) = [] :: splitOnChar c xs := by
  conv_lhs => rw [splitOnChar]
  rw [if_pos rfl]

theorem splitOnChar_cons_ne {x c : Char} (h : x ≠ c) {xs : GoStr}
    {hd : GoStr} {tl : List GoStr} (he : splitOnChar c xs = hd :: tl) :
    splitOnChar c (x :: xs) = (x :: hd) :: tl := by
  unfold splitOnChar
  rw [if_neg h, he]

theorem length_splitOnChar (c : Char) (l : GoStr) :
    (splitOnChar c l).length = l.count c + 1 := by
  induction l with
  | nil => simp [splitOnChar]
  | cons x xs ih =>
    by_cases h : x = c
    · subst h
      rw [splitOnChar_cons_self]
      simp [List.count_cons, ih]
    · obtain ⟨hd, tl, he⟩ : ∃ hd tl, splitOnChar c xs = hd :: tl := by
        cases hsp : splitOnChar c xs with
        | nil => exact absurd hsp (splitOnChar_ne_nil c xs)
        | cons a b => exact ⟨a, b, rfl⟩
      rw [splitOnChar_cons_ne h he]
      have := ih
      rw [he] at this
      simp only [List.length_cons] at this ⊢
      rw [List.count_cons]
      simp [h, this]

theorem splitOnChar_of_not_mem {c : Char} {l : GoStr} (h : c ∉ l) :
    splitOnChar c l = [l] := by
  induction l with
  | nil => rfl
  | cons x xs ih =>
    have hx : x ≠ c := fun he => h (he ▸ List.mem_cons_self x xs)
    have hxs : c ∉ xs := fun hm => h (List.mem_cons_of_mem x hm)
    exact splitOnChar_cons_ne hx (ih hxs)

theorem splitOnChar_append_cons {c : Char} {p : GoStr} (h : c ∉ p) (r : GoStr) :
    splitOnChar c (p ++ c :: r) = p :: splitOnChar c r := by
  induction p with
  | nil => simpa using splitOnChar_cons_self c r
  | cons x xs ih =>
    have hx : x ≠ c := fun he => h (he ▸ List.mem_cons_self x xs)
    have hxs : c ∉ xs := fun hm => h (List.mem_cons_of_mem x hm)
    obtain ⟨hd, tl, he⟩ : ∃ hd tl, splitOnChar c (xs ++ c :: r) = hd :: tl := by
      cases hsp : splitOnChar c (xs ++ c :: r) with
      | nil => exact absurd hsp (splitOnChar_ne_nil c _)
      | cons a b => exact ⟨a, b, rfl⟩
    have := ih hxs
    rw [he] at this
    cases this
    exact splitOnChar_cons_ne hx he

theorem splitOnChar_joinChar {c : Char} :
    ∀ {parts : List GoStr}, parts ≠ [] → (∀ p ∈ parts, c ∉ p) →
      splitOnChar c (joinChar c parts) = parts
  | [], h, _ => absurd rfl h
  | [p], _, hp => by
    simp only [joinChar]
    exact splitOnChar_of_not_mem (hp p (List.mem_singleton_self p))
  | p :: q :: ps, _, hp => by
    show splitOnChar c (p ++ c :: joinChar c (q :: ps)) = p :: q :: ps
    rw [splitOnChar_append_cons (hp p (List.mem_cons_self p _))]
    rw [splitOnChar_joinChar (List.cons_ne_nil q ps)
      (fun x hx => hp x (List.mem_cons_of_mem p hx))]

theorem mem_joinChar_of_two {c : Char} (p q : GoStr) (ps : List GoStr) :
    c ∈ joinChar c (p :: q :: ps) := by
  show c ∈ p ++ c :: joinChar c (q :: ps)
  exact List.mem_append_right p (List.mem_cons_self c _)

theorem head?_joinChar {c : Char} {p : GoStr} (hne : p ≠ []) (ps : List GoStr) :
    (joinChar c (p :: ps)).head? = p.head? := by
  cases ps with
  | nil => rfl
  | cons q ps' =>
    show (p ++ c :: joinChar c (q :: ps')).head? = p.head?
    rw [List.head?_append]
    cases hp : p.head? with
    | none => exact absurd (List.head?_eq_none_iff.mp hp) hne
    | some a => rfl

theorem getLast?_joinChar (c : Char) :
    ∀ {parts : List GoStr}, parts ≠ [] → (∀ p ∈ parts, p ≠ []) →
      ∃ q ∈ parts, (joinChar c parts).getLast? = q.getLast?
  | [], h, _ => absurd rfl h
  | [p], _, _ => ⟨p, List.mem_singleton_self p, rfl⟩
  | p :: q :: ps, _, hp => by
    obtain ⟨r, hr, he⟩ := getLast?_joinChar c (List.cons_ne_nil q ps)
      (fun x hx => hp x (List.mem_cons_of_mem p hx))
    refine ⟨r, List.mem_cons_of_mem p hr, ?_⟩
    show (p ++ c :: joinChar c (q :: ps)).getLast? = r.getLast?
    rw [List.getLast?_append]
    have hjoin : joinChar c (q :: ps) ≠ [] := by
      intro hnil
      rw [hnil] at he
      simp only [List.getLast?_nil] at he
      have hrne := hp r (List.mem_cons_of_mem p hr)
      cases hrcase : r with
      | nil => exact hrne hrcase
      | cons a b =>
        rw [hrcase] at he
        rw [List.getLast?_eq_getLast _ (by simp)] at he
        cases he
    cases hj : (c :: joinChar c (q :: ps)).getLast? with
    | none =>
      exact absurd (List.getLast?_eq_none_iff.mp hj) (List.cons_ne_nil c _)
    | some a =>
      have : (c :: joinChar c (q :: ps)).getLast? = (joinChar c (q :: ps)).getLast? := by
        rw [List.getLast?_cons]
        cases hg : (joinChar c (q :: ps)).getLast? with
        | none => exact absurd (List.getLast?_eq_none_iff.mp hg) hjoin
        | some b => rfl
      rw [hj] at this
      simp only [Option.or_some]
      rw [this, he]

theorem takeWhile_ne_append_cons {c : Char} {a : GoStr} (h : c ∉ a) (b : GoStr) :
    (a ++ c :: b).takeWhile (· ≠ c) = a := by
  induction a with
  | nil => simp [List.takeWhile_cons]
  | cons x xs ih =>
    have hx : x ≠ c := fun he => h (he ▸ List.mem_cons_self x xs)
    have hxs : c ∉ xs := fun hm => h (List.mem_cons_of_mem x hm)
    simp only [List.cons_append, List.takeWhile_cons]
    simp only [hx, ne_eq, not_false_eq_true, decide_True, if_true]
    simpa using ih hxs

theorem dropWhile_ne_append_cons {c : Char} {a : GoStr} (h : c ∉ a) (b : GoStr) :
    (a ++ c :: b).dropWhile (· ≠ c) = c :: b := by
  induction a with
  | nil => simp [List.dropWhile_cons]
  | cons x xs ih =>
    have hx : x ≠ c := fun he => h (he ▸ List.mem_cons_self x xs)
    have hxs : c ∉ xs := fun hm => h (List.mem_cons_of_mem x hm)
    simp only [List.cons_append, List.dropWhile_cons]
    simp only [hx, ne_eq, not_false_eq_true, decide_True, if_true]
    simpa using ih hxs

theorem splitFirst_append_cons {c : Char} {a : GoStr} (h : c ∉ a) (b : GoStr) :
    splitFirst c (a ++ c :: b) = (a, b) := by
  unfold splitFirst
  rw [takeWhile_ne_append_cons h, dropWhile_ne_append_cons h]
  rfl

/-! ## Round-trip lemmas for the window-spec codec -/

theorem getLast?_cons_of_ne_nil {a : α} {l : List α} (h : l ≠ []) :
    (a :: l).getLast? = l.getLast? := by
  rw [List.getLast?_cons]
  cases hl : l.getLast? with
  | none => exact absurd (List.getLast?_eq_none_iff.mp hl) h
  | some b => rfl

theorem getLast?_append_of_ne_nil {l l' : List α} (h : l' ≠ []) :
    (l ++ l').getLast? = l'.getLast? := by
  rw [List.getLast?_append]
  cases hl : l'.getLast? with
  | none => exact absurd (List.getLast?_eq_none_iff.mp hl) h
  | some b => rfl

theorem head?_append_of_ne_nil {l l' : List α} (h : l ≠ []) :
    (l ++ l').head? = l.head? := by
  rw [List.head?_append]
  cases hl : l.head? with
  | none => exact absurd (List.head?_eq_none_iff.mp hl) h
  | some b => rfl

/-- Unpack the boolean `windowRoundTripSafe` guard into its parts. -/
theorem windowRoundTripSafe_spec {w : WindowTemplate}
    (hw : windowRoundTripSafe w = true) :
    trimSpace w.name ≠ [] ∧
    ('=' ∉ trimSpace w.name ∧ '|' ∉ trimSpace w.name ∧
      ';' ∉ trimSpace w.name ∧ ',' ∉ trimSpace w.name) ∧
    ('|' ∉ trimSpace w.cmd ∧ ';' ∉ trimSpace w.cmd ∧ ',' ∉ trimSpace w.cmd) ∧
    (';' ∉ trimSpace w.cwd ∧ ',' ∉ trimSpace w.cwd) := by
  simp only [windowRoundTripSafe, Bool.and_eq_true, List.all_eq_true] at hw
  obtain ⟨⟨⟨hn, h1⟩, h2⟩, h3⟩ := hw
  refine ⟨?_, ⟨?_, ?_, ?_, ?_⟩, ⟨?_, ?_, ?_⟩, ?_, ?_⟩
  · intro he; rw [he] at hn; simp at hn
  · intro hm; have := h1 _ hm; simp at this
  · intro hm; have := h1 _ hm; simp at this
  · intro hm; have := h1 _ hm; simp at this
  · intro hm; have := h1 _ hm; simp at this
  · intro hm; have := h2 _ hm; simp at this
  · intro hm; have := h2 _ hm; simp at this
  · intro hm; have := h2 _ hm; simp at this
  · intro hm; have := h3 _ hm; simp at this
  · intro hm; have := h3 _ hm; simp at this

theorem fmtEntry_eq {w : WindowTemplate} (hn : trimSpace w.name ≠ []) :
    fmtEntry w = some (entryOfWindow w) := by
  simp only [fmtEntry, entryOfWindow]
  rw [if_neg hn]
  split_ifs <;> rfl

theorem entryOfWindow_shape_bare {w : WindowTemplate}
    (hcm : trimSpace w.cmd = []) (hcd : trimSpace w.cwd = []) :
    entryOfWindow w = trimSpace w.name := by
  simp only [entryOfWindow]
  rw [if_neg (by simp [hcm, hcd])]

theorem entryOfWindow_shape_cmd {w : WindowTemplate}
    (hcm : trimSpace w.cmd ≠ []) (hcd : trimSpace w.cwd = []) :
    entryOfWindow w = trimSpace w.name ++ '=' :: trimSpace w.cmd := by
  simp only [entryOfWindow]
  rw [if_pos (Or.inl hcm), if_neg (by simp [hcd]), List.append_nil]

theorem entryOfWindow_shape_full {w : WindowTemplate}
    (hcd : trimSpace w.cwd ≠ []) :
    entryOfWindow w =
      trimSpace w.name ++ '=' :: (trimSpace w.cmd ++ '|' :: trimSpace w.cwd) := by
  simp only [entryOfWindow]
  rw [if_pos (Or.inr hcd), if_pos hcd]
  simp [List.cons_append]

theorem entryOfWindow_ne_nil {w : WindowTemplate} (hn : trimSpace w.name ≠ []) :
    entryOfWindow w ≠ [] := by
  by_cases hcd : trimSpace w.cwd = []
  · by_cases hcm : trimSpace w.cmd = []
    · rw [entryOfWindow_shape_bare hcm hcd]; exact hn
    · rw [entryOfWindow_shape_cmd hcm hcd]; simp [hn]
  · rw [entryOfWindow_shape_full hcd]; simp [hn]

theorem mem_entryOfWindow {w : WindowTemplate} {x : Char}
    (hx : x ∈ entryOfWindow w) :
    x ∈ trimSpace w.name ∨ x = '=' ∨ x ∈ trimSpace w.cmd ∨ x = '|' ∨
      x ∈ trimSpace w.cwd := by
  by_cases hcd : trimSpace w.cwd = []
  · by_cases hcm : trimSpace w.cmd = []
    · rw [entryOfWindow_shape_bare hcm hcd] at hx
      exact Or.inl hx
    · rw [entryOfWindow_shape_cmd hcm hcd] at hx
      simp only [List.mem_append, List.mem_cons] at hx
      tauto
  · rw [entryOfWindow_shape_full hcd] at hx
    simp only [List.mem_append, List.mem_cons] at hx
    tauto

theorem trimSpace_entryOfWindow {w : WindowTemplate}
    (hn : trimSpace w.name ≠ []) :
    trimSpace (entryOfWindow w) = entryOfWindow w := by
  have hhead : ∀ a, (trimSpace w.name).head? = some a → goIsSpace a = false :=
    fun a ha => trimSpace_head? ha
  by_cases hcd : trimSpace w.cwd = []
  · by_cases hcm : trimSpace w.cmd = []
    · rw [entryOfWindow_shape_bare hcm hcd]
      exact trimSpace_eq_self hhead (fun a ha => trimSpace_getLast? ha)
    · rw [entryOfWindow_shape_cmd hcm hcd]
      refine trimSpace_eq_self (fun a ha => ?_) (fun a ha => ?_)
      · rw [head?_append_of_ne_nil hn] at ha
        exact hhead a ha
      · rw [getLast?_append_of_ne_nil (List.cons_ne_nil _ _),
          getLast?_cons_of_ne_nil hcm] at ha
        exact trimSpace_getLast? ha
  · rw [entryOfWindow_shape_full hcd]
    refine trimSpace_eq_self (fun a ha => ?_) (fun a ha => ?_)
    · rw [head?_append_of_ne_nil hn] at ha
      exact hhead a ha
    · rw [getLast?_append_of_ne_nil (List.cons_ne_nil _ _),
        getLast?_cons_of_ne_nil (by simp [hcd]),
        getLast?_append_of_ne_nil (List.cons_ne_nil _ _),
        getLast?_cons_of_ne_nil hcd] at ha
      exact trimSpace_getLast? ha

theorem parseWindowEntry_entryOfWindow {w : WindowTemplate}
    (hw : windowRoundTripSafe w = true) :
    parseWindowEntry (entryOfWindow w) = .ok (trimWindow w) := by
  obtain ⟨hn, ⟨hne, hnp, _, _⟩, ⟨hcp, _, _⟩, _, _⟩ := windowRoundTripSafe_spec hw
  have hidem_n : trimSpace (trimSpace w.name) = trimSpace w.name :=
    trimSpace_trimSpace w.name
  have hidem_c : trimSpace (trimSpace w.cmd) = trimSpace w.cmd :=
    trimSpace_trimSpace w.cmd
  have hidem_d : trimSpace (trimSpace w.cwd) = trimSpace w.cwd :=
    trimSpace_trimSpace w.cwd
  have htrim := trimSpace_entryOfWindow hn
  have hnonnil := entryOfWindow_ne_nil hn
  by_cases hcd : trimSpace w.cwd = []
  · by_cases hcm : trimSpace w.cmd = []
    · rw [entryOfWindow_shape_bare hcm hcd] at htrim hnonnil ⊢
      have hceq : containsChar (trimSpace w.name) '=' = false :=
        containsChar_false.mpr hne
      have hcpipe : containsChar (trimSpace w.name) '|' = false :=
        containsChar_false.mpr hnp
      simp only [parseWindowEntry, htrim, hceq, hcpipe, hidem_n]
      rw [if_neg hnonnil, if_neg hn]
      simp [trimWindow, hcm, hcd]
    · rw [entryOfWindow_shape_cmd hcm hcd] at htrim hnonnil ⊢
      have hceq : containsChar (trimSpace w.name ++ '=' :: trimSpace w.cmd) '=' = true :=
        containsChar_iff.mpr (List.mem_append_right _ (List.mem_cons_self _ _))
      have hsplit := splitFirst_append_cons hne (trimSpace w.cmd)
      have hcpipe : containsChar (trimSpace w.cmd) '|' = false :=
        containsChar_false.mpr hcp
      simp only [parseWindowEntry, htrim, hceq, hsplit, hidem_n, hidem_c, hcpipe]
      rw [if_neg hnonnil, if_true, if_neg hn]
      simp [trimWindow, hcd]
  · rw [entryOfWindow_shape_full hcd] at htrim hnonnil ⊢
    have hceq : containsChar
        (trimSpace w.name ++ '=' :: (trimSpace w.cmd ++ '|' :: trimSpace w.cwd)) '=' = true :=
      containsChar_iff.mpr (List.mem_append_right _ (List.mem_cons_self _ _))
    have hsplit := splitFirst_append_cons hne (trimSpace w.cmd ++ '|' :: trimSpace w.cwd)
    have htrimtail : trimSpace (trimSpace w.cmd ++ '|' :: trimSpace w.cwd) =
        trimSpace w.cmd ++ '|' :: trimSpace w.cwd := by
      refine trimSpace_eq_self (fun a ha => ?_) (fun a ha => ?_)
      · by_cases hcm : trimSpace w.cmd = []
        · rw [hcm] at ha
          simp only [List.nil_append, List.head?_cons, Option.some.injEq] at ha
          subst ha; rfl
        · rw [head?_append_of_ne_nil hcm] at ha
          exact trimSpace_head? (hidem_c ▸ ha)
      · rw [getLast?_append_of_ne_nil (List.cons_ne_nil _ _),
          getLast?_cons_of_ne_nil hcd] at ha
        exact trimSpace_getLast? ha
    have hcpipe : containsChar (trimSpace w.cmd ++ '|' :: trimSpace w.cwd) '|' = true :=
      containsChar_iff.mpr (List.mem_append_right _ (List.mem_cons_self _ _))
    have hsplit2 := splitFirst_append_cons hcp (trimSpace w.cwd)
    simp only [parseWindowEntry, htrim, hceq, hsplit, hidem_n, htrimtail, hcpipe,
      hsplit2, hidem_c, hidem_d]
    rw [if_neg hnonnil, if_true, if_neg hn]
    simp [trimWindow]

theorem filterMap_fmtEntry {ws : List WindowTemplate}
    (h : ∀ w ∈ ws, trimSpace w.name ≠ []) :
    ws.filterMap fmtEntry = ws.map entryOfWindow := by
  induction ws with
  | nil => rfl
  | cons w ws ih =>
    rw [List.filterMap_cons, fmtEntry_eq (h w (List.mem_cons_self w ws)),
      List.map_cons, ih fun x hx => h x (List.mem_cons_of_mem w hx)]

theorem joinChar_ne_nil {c : Char} {p : GoStr} (hp : p ≠ []) (ps : List GoStr) :
    joinChar c (p :: ps) ≠ [] := by
  cases ps with
  | nil => exact hp
  | cons q ps' =>
    show p ++ c :: joinChar c (q :: ps') ≠ []
    simp

theorem trimSpace_joinChar {parts : List GoStr} (hne : parts ≠ [])
    (hparts : ∀ p ∈ parts, p ≠ [] ∧ trimSpace p = p) :
    trimSpace (joinChar ';' parts) = joinChar ';' parts := by
  cases parts with
  | nil => exact absurd rfl hne
  | cons p ps =>
    have hp := hparts p (List.mem_cons_self p ps)
    refine trimSpace_eq_self (fun a ha => ?_) (fun a ha => ?_)
    · rw [head?_joinChar hp.1] at ha
      rw [← hp.2] at ha
      exact trimSpace_head? ha
    · obtain ⟨q, hq, he⟩ := getLast?_joinChar ';' (List.cons_ne_nil p ps)
        (fun x hx => (hparts x hx).1)
      rw [he] at ha
      rw [← (hparts q hq).2] at ha
      exact trimSpace_getLast? ha

theorem splitWindowEntries_joinChar {parts : List GoStr} (hne : parts ≠ [])
    (hparts : ∀ p ∈ parts, p ≠ [] ∧ trimSpace p = p ∧ ';' ∉ p ∧ ',' ∉ p) :
    splitWindowEntries (joinChar ';' parts) = parts := by
  have htrim : trimSpace (joinChar ';' parts) = joinChar ';' parts :=
    trimSpace_joinChar hne fun p hp => ⟨(hparts p hp).1, (hparts p hp).2.1⟩
  have hmapt : parts.map trimSpace = parts := by
    rw [List.map_congr_left fun p hp => (hparts p hp).2.1]
    exact List.map_id parts
  have hfilter : parts.filter (· ≠ []) = parts :=
    List.filter_eq_self.mpr fun p hp => by
      simpa using (hparts p hp).1
  cases parts with
  | nil => exact absurd rfl hne
  | cons p ps =>
    have hjne : joinChar ';' (p :: ps) ≠ [] :=
      joinChar_ne_nil (hparts p (List.mem_cons_self p ps)).1 ps
    cases ps with
    | nil =>
      have hp := hparts p (List.mem_cons_self p [])
      have hjoin : joinChar ';' [p] = p := rfl
      rw [hjoin] at htrim hjne ⊢
      have hsemi : containsChar p ';' = false :=
        containsChar_false.mpr hp.2.2.1
      have hsplit : splitOnChar ',' p = [p] :=
        splitOnChar_of_not_mem hp.2.2.2
      simp only [splitWindowEntries, htrim, hsemi]
      rw [if_neg hjne, if_neg (by simp)]
      rw [hsplit]
      show ([p].map trimSpace).filter (· ≠ []) = [p]
      rw [show [p].map trimSpace = [p] from hmapt, hfilter]
    | cons q ps' =>
      have hsemi : containsChar (joinChar ';' (p :: q :: ps')) ';' = true :=
        containsChar_iff.mpr (mem_joinChar_of_two p q ps')
      have hsplit : splitOnChar ';' (joinChar ';' (p :: q :: ps')) = p :: q :: ps' :=
        splitOnChar_joinChar (List.cons_ne_nil p _)
          fun x hx => (hparts x hx).2.2.1
      simp only [splitWindowEntries, htrim, hsemi]
      rw [if_neg hjne, if_pos trivial, hsplit, hmapt, hfilter]

theorem parseEntries_map {ws : List WindowTemplate}
    (h : ∀ w ∈ ws, windowRoundTripSafe w = true) :
    parseEntries (ws.map entryOfWindow) = .ok (ws.map trimWindow) := by
  induction ws with
  | nil => rfl
  | cons w ws ih =>
    rw [List.map_cons, List.map_cons]
    show parseEntries (entryOfWindow w :: ws.map entryOfWindow) = _
    rw [parseEntries, parseWindowEntry_entryOfWindow (h w (List.mem_cons_self w ws)),
      ih fun x hx => h x (List.mem_cons_of_mem w hx)]

/-! ## Claim theorems -/

/-- C1, counterexample: encode→decode is not the identity modulo trimming
on every window list.  A command containing `|` is re-split into
command and directory, and the empty window list fails to decode at all. -/
theorem claim_c1_counterexample :
    parseWindowSpec (formatWindowSpec [{ name := gs "a", cmd := gs "b|c" }]) ≠
      .ok ([({ name := gs "a", cmd := gs "b|c" } : WindowTemplate)].map trimWindow) ∧
    parseWindowSpec (formatWindowSpec ([] : List WindowTemplate)) ≠
      .ok (([] : List WindowTemplate).map trimWindow) := by
  constructor <;> decide

/-- C1 (amended): for every nonempty window list whose windows, after
trimming, have a nonempty name free of `=`, `|`, `;`, `,`, a command free
of `|`, `;`, `,` and a directory free of `;`, `,`, encoding with
`formatWindowSpec` and decoding with `parseWindowSpec` yields exactly the
original windows with each field whitespace-trimmed. -/
theorem claim_c1_roundTrip (ws : List WindowTemplate) (hne : ws ≠ [])
    (hsafe : ∀ w ∈ ws, windowRoundTripSafe w = true) :
    parseWindowSpec (formatWindowSpec ws) = .ok (ws.map trimWindow) := by
  have hnames : ∀ w ∈ ws, trimSpace w.name ≠ [] :=
    fun w hw => (windowRoundTripSafe_spec (hsafe w hw)).1
  have hmapne : ws.map entryOfWindow ≠ [] := by
    simpa using hne
  have hparts : ∀ p ∈ ws.map entryOfWindow,
      p ≠ [] ∧ trimSpace p = p ∧ ';' ∉ p ∧ ',' ∉ p := by
    intro p hp
    obtain ⟨w, hw, rfl⟩ := List.mem_map.mp hp
    obtain ⟨hn, ⟨_, _, hns, hnc⟩, ⟨_, hcs, hcc⟩, hds, hdc⟩ :=
      windowRoundTripSafe_spec (hsafe w hw)
    refine ⟨entryOfWindow_ne_nil hn, trimSpace_entryOfWindow hn, ?_, ?_⟩
    · intro hmem
      rcases mem_entryOfWindow hmem with h | h | h | h | h
      · exact hns h
      · cases h
      · exact hcs h
      · cases h
      · exact hds h
    · intro hmem
      rcases mem_entryOfWindow hmem with h | h | h | h | h
      · exact hnc h
      · cases h
      · exact hcc h
      · cases h
      · exact hdc h
  unfold formatWindowSpec
  rw [filterMap_fmtEntry hnames]
  unfold parseWindowSpec
  rw [splitWindowEntries_joinChar hmapne hparts, if_neg hmapne]
  exact parseEntries_map hsafe

/-- C1, witness for the amended round-trip theorem. -/
theorem claim_c1_roundTrip_witness :
    parseWindowSpec (formatWindowSpec
        [{ name := gs "editor", cmd := gs "nvim ." },
         { name := gs " term ", cwd := gs "src" }]) =
      .ok ([({ name := gs "editor", cmd := gs "nvim ." } : WindowTemplate),
            { name := gs " term ", cwd := gs "src" }].map trimWindow) :=
  claim_c1_roundTrip
    [{ name := gs "editor", cmd := gs "nvim ." },
     { name := gs " term ", cwd := gs "src" }]
    (by decide) (by decide)

/-- C6: a window entry without `=` that splits on `|` into more than three
segments fails to decode, with an error naming the (trimmed) entry; in
particular the spec `"a|b|c|d"` fails with that error. -/
theorem claim_c6_invalidEntry :
    (∀ entry : GoStr, containsChar entry '=' = false →
      (splitOnChar '|' entry).length > 3 →
      parseWindowEntry entry = .error (.invalidEntry (trimSpace entry))) ∧
    parseWindowSpec (gs "a|b|c|d") = .error (.invalidEntry (gs "a|b|c|d")) := by
  constructor
  · intro entry hceq hlen
    have hcount : (trimSpace entry).count '|' = entry.count '|' :=
      count_trimSpace (by decide)
    have hlen' : (splitOnChar '|' (trimSpace entry)).length > 3 := by
      rw [length_splitOnChar, hcount, ← length_splitOnChar '|' entry]
      exact hlen
    have hmem : '|' ∈ trimSpace entry := by
      rw [← List.count_pos_iff]
      have := hlen'
      rw [length_splitOnChar] at this
      omega
    have hne : trimSpace entry ≠ [] := List.ne_nil_of_mem hmem
    have hceq' : containsChar (trimSpace entry) '=' = false := by
      rw [containsChar_false]
      intro hmem'
      have := mem_of_mem_trimSpace hmem'
      rw [← containsChar_iff] at this
      rw [this] at hceq
      cases hceq
    have hpipe : containsChar (trimSpace entry) '|' = true :=
      containsChar_iff.mpr hmem
    simp only [parseWindowEntry, hceq', hpipe]
    rw [if_neg hne]
    simp [hlen']
  · decide

/-- C6, witness: the general statement applied to the entry `"a|b|c|d"`. -/
theorem claim_c6_invalidEntry_witness :
    parseWindowEntry (gs "a|b|c|d") = .error (.invalidEntry (trimSpace (gs "a|b|c|d"))) :=
  claim_c6_invalidEntry.1 (gs "a|b|c|d") (by decide) (by decide)

/-- C9: an entry containing `=` with a nonempty trimmed name before the
first `=` always decodes successfully, however many `|` follow the `=`;
in particular `"a=b|c|d"` decodes to name `a`, cmd `b`, cwd `c|d`. -/
theorem claim_c9_eq_entry_parses :
    (∀ entry : GoStr, containsChar (trimSpace entry) '=' = true →
      trimSpace (splitFirst '=' (trimSpace entry)).1 ≠ [] →
      ∃ w, parseWindowEntry entry = .ok w) ∧
    parseWindowEntry (gs "a=b|c|d") =
      .ok { name := gs "a", cmd := gs "b", cwd := gs "c|d" } := by
  constructor
  · intro entry hc hn
    have hne : trimSpace entry ≠ [] := by
      intro h
      rw [h] at hc
      cases hc
    simp only [parseWindowEntry, hc]
    rw [if_neg hne, if_true, if_neg hn]
    split
    · exact ⟨_, rfl⟩
    · exact ⟨_, rfl⟩
  · decide

/-- C9, witness: the general statement applied to `"a=b|c|d"`. -/
theorem claim_c9_eq_entry_parses_witness :
    ∃ w, parseWindowEntry (gs "a=b|c|d") = .ok w :=
  claim_c9_eq_entry_parses.1 (gs "a=b|c|d") (by decide) (by decide)

/-- C7: session-name derivation equals the specified map (`"ide-"` plus
the trimmed name lowercased with spaces replaced by hyphens, `"ide"` for a
blank name), and the specified examples hold. -/
theorem claim_c7_sessionName :
    (∀ envName : GoStr, SessionName envName = sessionNameSpec envName) ∧
    SessionName (gs "Prod API") = gs "ide-prod-api" ∧
    SessionName (gs "") = gs "ide" ∧
    SessionName (gs "   ") = gs "ide" := by
  refine ⟨?_, by decide, by decide, by decide⟩
  intro envName
  simp only [SessionName, sessionNameSpec]
  rw [trimSpace_goToLower]
  by_cases h : trimSpace envName = []
  · simp [h, replaceChar, goToLower]
  · rw [if_neg (by simp [replaceChar, goToLower, h]), if_neg h]

/-- C3, counterexample: a create request whose name duplicates an existing
environment but whose root is blank fails with the root-required error,
not the duplicate-name error (the blank-field checks run first). -/
theorem claim_c3_counterexample :
    createEnvironment (fun s => s) (gs "prod") (gs "") []
        { environments := [{ name := gs "Prod", windows := [] }],
          templates := [], theme := [] } =
      .error .rootRequired ∧
    createEnvironment (fun s => s) (gs "prod") (gs "") []
        { environments := [{ name := gs "Prod", windows := [] }],
          templates := [], theme := [] } ≠
      .error (.duplicateName (gs "prod")) := by
  constructor <;> decide

/-- C3 (amended): a create request whose trimmed name is nonempty and
whose normalized root is nonempty, and whose name matches an existing
environment case-insensitively after trimming, fails with the
duplicate-name error; no save is performed (an error return precedes the
`config.SaveAll` call, whose input is the `ok` payload of the model). -/
theorem claim_c3_duplicateName (osPath : GoStr → GoStr) (name root : GoStr)
    (windows : List WindowTemplate) (data : Data)
    (hdup : data.environments.any
      (fun env => equalFold (trimSpace env.name) (trimSpace name)) = true)
    (hname : trimSpace name ≠ [])
    (hroot : normalizeRootPath osPath root ≠ []) :
    createEnvironment osPath name root windows data =
      .error (.duplicateName (trimSpace name)) := by
  simp only [createEnvironment]
  rw [if_neg hname, if_neg hroot, if_pos hdup]

/-- C3, witness for the amended duplicate-name theorem. -/
theorem claim_c3_duplicateName_witness :
    createEnvironment (fun s => s) (gs "PROD") (gs "/x") []
        { environments := [{ name := gs "prod", windows := [] }],
          templates := [], theme := [] } =
      .error (.duplicateName (gs "PROD")) :=
  claim_c3_duplicateName (fun s => s) (gs "PROD") (gs "/x") []
    { environments := [{ name := gs "prod", windows := [] }],
      templates := [], theme := [] }
    (by decide) (by decide) (by decide)

/-- `findWithIdx` only succeeds on a nonempty list. -/
theorem findWithIdx_some_ne_nil {p : α → Bool} {l : List α} {i : Nat} {a : α}
    (h : findWithIdx p l = some (i, a)) : l ≠ [] := by
  intro he
  subst he
  cases h

/-- C4: a reorder request for an environment with fewer than two windows,
or one targeting the first window with direction `-1` or the last window
with direction `+1`, returns an error; the swap and the `config.Save`
call never happen (a save happens only on the `ok` result of the model). -/
theorem claim_c4_reorder_boundaries (envName windowName : GoStr)
    (envs : List Environment) (i : Nat) (env : Environment)
    (hfind : findWithIdx
      (fun e => equalFold (trimSpace e.name) (trimSpace envName)) envs =
      some (i, env)) :
    (env.windows.length < 2 →
      ∀ d : Int, ∃ e, moveWindowOrder envName windowName d envs = .error e) ∧
    (∀ w, findWithIdx
        (fun w' => normalizeWindowName w'.name == normalizeWindowName windowName)
        env.windows = some (0, w) →
      ∃ e, moveWindowOrder envName windowName (-1) envs = .error e) ∧
    (∀ w, findWithIdx
        (fun w' => normalizeWindowName w'.name == normalizeWindowName windowName)
        env.windows = some (env.windows.length - 1, w) →
      ∃ e, moveWindowOrder envName windowName 1 envs = .error e) := by
  refine ⟨?_, ?_, ?_⟩
  · intro hlt d
    by_cases hd : d = 0
    · exact ⟨.zeroDirection, by simp only [moveWindowOrder]; rw [if_pos hd]⟩
    · refine ⟨.fewerThanTwoWindows env.name, ?_⟩
      simp only [moveWindowOrder, hfind]
      rw [if_neg hd, if_pos hlt]
  · intro w hw
    by_cases hlt : env.windows.length < 2
    · refine ⟨.fewerThanTwoWindows env.name, ?_⟩
      simp only [moveWindowOrder, hfind]
      rw [if_neg (by decide), if_pos hlt]
    · refine ⟨.alreadyFirst, ?_⟩
      simp only [moveWindowOrder, hfind, hw]
      rw [if_neg (by decide), if_neg hlt,
        if_pos (Or.inl (by norm_num)), if_pos (by decide)]
  · intro w hw
    by_cases hlt : env.windows.length < 2
    · refine ⟨.fewerThanTwoWindows env.name, ?_⟩
      simp only [moveWindowOrder, hfind]
      rw [if_neg (by decide), if_pos hlt]
    · refine ⟨.alreadyLast, ?_⟩
      have hne : env.windows ≠ [] := findWithIdx_some_ne_nil hw
      have hlen : 1 ≤ env.windows.length := by
        cases hwin : env.windows with
        | nil => exact absurd hwin hne
        | cons a b => simp [hwin]
      simp only [moveWindowOrder, hfind, hw]
      rw [if_neg (by decide), if_neg hlt,
        if_pos (Or.inr (by omega)),
        if_neg (by decide)]

/-- C4, witness: the boundary cases of the reorder command on concrete
one- and two-window environments. -/
theorem claim_c4_reorder_boundaries_witness :
    (∃ e, moveWindowOrder (gs "e") (gs "solo") (-1)
      [{ name := gs "e", windows := [{ name := gs "solo" }] }] = .error e) ∧
    (∃ e, moveWindowOrder (gs "e") (gs "first") (-1)
      [{ name := gs "e",
         windows := [{ name := gs "first" }, { name := gs "second" }] }] = .error e) ∧
    (∃ e, moveWindowOrder (gs "e") (gs "second") 1
      [{ name := gs "e",
         windows := [{ name := gs "first" }, { name := gs "second" }] }] = .error e) :=
  ⟨(claim_c4_reorder_boundaries (gs "e") (gs "solo")
      [{ name := gs "e", windows := [{ name := gs "solo" }] }] 0
      { name := gs "e", windows := [{ name := gs "solo" }] } (by decide)).1
    (by decide) (-1),
   (claim_c4_reorder_boundaries (gs "e") (gs "first")
      [{ name := gs "e",
         windows := [{ name := gs "first" }, { name := gs "second" }] }] 0
      { name := gs "e",
        windows := [{ name := gs "first" }, { name := gs "second" }] }
      (by decide)).2.1 { name := gs "first" } (by decide),
   (claim_c4_reorder_boundaries (gs "e") (gs "second")
      [{ name := gs "e",
         windows := [{ name := gs "first" }, { name := gs "second" }] }] 0
      { name := gs "e",
        windows := [{ name := gs "first" }, { name := gs "second" }] }
      (by decide)).2.2 { name := gs "second" } (by decide)⟩

/-- Transitivity of the non-strict environment comparator. -/
theorem envLe_trans (a b c : Environment) (h1 : (!envLess b a) = true)
    (h2 : (!envLess c b) = true) : (!envLess c a) = true := by
  simp only [envLess, Bool.not_eq_true', decide_eq_false_iff_not, not_lt] at h1 h2 ⊢
  exact le_trans h1 h2

/-- Totality of the non-strict environment comparator. -/
theorem envLe_total (a b : Environment) :
    ((!envLess b a) || (!envLess a b)) = true := by
  simp only [envLess, Bool.or_eq_true, Bool.not_eq_true', decide_eq_false_iff_not,
    not_lt]
  exact le_total _ _

/-- Transitivity of the non-strict template comparator. -/
theorem tplLe_trans (a b c : Template) (h1 : (!tplLess b a) = true)
    (h2 : (!tplLess c b) = true) : (!tplLess c a) = true := by
  by_cases ha : equalFold a.name (gs "default") = true <;>
    by_cases hb : equalFold b.name (gs "default") = true <;>
      by_cases hc : equalFold c.name (gs "default") = true <;>
        simp_all [tplLess, not_lt] <;>
          exact le_trans h1 h2

/-- Totality of the non-strict template comparator. -/
theorem tplLe_total (a b : Template) :
    ((!tplLess b a) || (!tplLess a b)) = true := by
  by_cases ha : equalFold a.name (gs "default") = true <;>
    by_cases hb : equalFold b.name (gs "default") = true <;>
      simp_all [tplLess, not_lt] <;>
        exact le_total _ _

/-- C8: the config-load result has the environments sorted ascending by
case-insensitive name (as a permutation of the loaded list), and the
templates sorted with every template named "default" (case-insensitively)
first and the remainder ascending by case-insensitive name. -/
theorem claim_c8_loadConfig_sorted (data : Data) :
    ((loadConfigResult data).envs.Perm data.environments ∧
      (loadConfigResult data).envs.Pairwise fun a b =>
        goToLower a.name ≤ goToLower b.name) ∧
    ((loadConfigResult data).templates.Perm data.templates ∧
      (loadConfigResult data).templates.Pairwise fun a b =>
        (equalFold b.name (gs "default") = true →
          equalFold a.name (gs "default") = true) ∧
        (equalFold a.name (gs "default") = false →
          goToLower a.name ≤ goToLower b.name)) := by
  refine ⟨⟨List.mergeSort_perm _ _, ?_⟩, List.mergeSort_perm _ _, ?_⟩
  · have hs := @List.sorted_mergeSort _ (fun a b => !envLess b a)
      envLe_trans envLe_total data.environments
    refine hs.imp ?_
    intro a b h
    simp only [envLess, Bool.not_eq_true', decide_eq_false_iff_not, not_lt] at h
    exact h
  · have hs := @List.sorted_mergeSort _ (fun a b => !tplLess b a)
      tplLe_trans tplLe_total data.templates
    refine hs.imp ?_
    intro a b h
    constructor
    · intro hbd
      by_cases had : equalFold a.name (gs "default") = true
      · exact had
      · exfalso
        simp [tplLess, hbd, had] at h
    · intro had
      by_cases hbd : equalFold b.name (gs "default") = true
      · exfalso
        simp [tplLess, hbd, had] at h
      · simp only [tplLess, had, hbd] at h
        simp only [Bool.and_self, Bool.not_false, Bool.and_false, Bool.and_true,
          Bool.false_and, Bool.true_and] at h
        simp only [Bool.not_eq_true', decide_eq_false_iff_not, not_lt] at h
        simpa using h

/-! ## State-machine lemmas -/

theorem moveEnv_deleteConfirm (m : Model) (d : Int) :
    (moveEnv m d).deleteConfirm = m.deleteConfirm := by
  unfold moveEnv; split_ifs <;> rfl

theorem moveWindow_deleteConfirm (m : Model) (d : Int) :
    (moveWindow m d).deleteConfirm = m.deleteConfirm := by
  simp only [moveWindow]; split_ifs <;> rfl

theorem moveTemplate_deleteConfirm (m : Model) (d : Int) :
    (moveTemplate m d).deleteConfirm = m.deleteConfirm := by
  unfold moveTemplate; split_ifs <;> rfl

theorem toggleFocusPane_deleteConfirm (m : Model) :
    (toggleFocusPane m).deleteConfirm = m.deleteConfirm := by
  unfold toggleFocusPane; split_ifs <;> rfl

theorem startKillSession_deleteConfirm (m : Model) :
    (startKillSession m).1.deleteConfirm = m.deleteConfirm := by
  cases hc : currentEnv m with
  | none => simp [startKillSession, hc]
  | some env =>
    simp only [startKillSession, hc]
    split_ifs <;> rfl

theorem startAttachSelected_deleteConfirm (m : Model) :
    (startAttachSelected m).1.deleteConfirm = m.deleteConfirm := by
  cases hc : currentEnv m with
  | none => simp [startAttachSelected, hc]
  | some env => simp only [startAttachSelected, hc]

theorem startMoveWindow_deleteConfirm (m : Model) (d : Int) :
    (startMoveWindow m d).1.deleteConfirm = m.deleteConfirm := by
  cases hc : currentEnv m with
  | none => simp [startMoveWindow, hc]
  | some env =>
    simp only [startMoveWindow, hc]
    split_ifs <;> rfl

theorem startEditTemplateMode_deleteConfirm (m : Model) :
    (startEditTemplateMode m).1.deleteConfirm = m.deleteConfirm := by
  cases hc : currentTemplate m with
  | none => simp [startEditTemplateMode, hc]
  | some tpl => simp only [startEditTemplateMode, hc]

theorem startDeleteTemplate_deleteConfirm (m : Model) :
    (startDeleteTemplate m).1.deleteConfirm = m.deleteConfirm := by
  cases hc : currentTemplate m with
  | none => simp [startDeleteTemplate, hc]
  | some tpl =>
    simp only [startDeleteTemplate, hc]
    split_ifs <;> rfl

theorem updateEnvironmentPanelKey_deleteConfirm (m : Model) (key : GoStr)
    (hd : key ≠ gs "d") :
    (updateEnvironmentPanelKey m key).1.deleteConfirm = m.deleteConfirm := by
  unfold updateEnvironmentPanelKey
  split_ifs with h1 h2 h3 h4 h5 h6 h7 h8
  · exact moveEnv_deleteConfirm m (-1)
  · exact moveEnv_deleteConfirm m 1
  · rfl
  · rfl
  · exact startKillSession_deleteConfirm m
  · rfl
  · rfl
  · exact startAttachSelected_deleteConfirm m
  · rfl

theorem updateWindowPanelKey_deleteConfirm (m : Model) (key : GoStr) :
    (updateWindowPanelKey m key).1.deleteConfirm = m.deleteConfirm := by
  unfold updateWindowPanelKey
  split_ifs with h1 h2 h3 h4 h5 h6 h7 h8
  · exact moveWindow_deleteConfirm m (-1)
  · exact moveWindow_deleteConfirm m 1
  · rfl
  · rfl
  · rfl
  · exact startMoveWindow_deleteConfirm m (-1)
  · exact startMoveWindow_deleteConfirm m 1
  · exact startAttachSelected_deleteConfirm m
  · rfl

theorem updateTemplatesPanelKey_deleteConfirm (m : Model) (key : GoStr) :
    (updateTemplatesPanelKey m key).1.deleteConfirm = m.deleteConfirm := by
  unfold updateTemplatesPanelKey
  split_ifs with h1 h2 h3 h4 h5 h6 h7
  · exact moveTemplate_deleteConfirm m (-1)
  · exact moveTemplate_deleteConfirm m 1
  · rfl
  · exact startEditTemplateMode_deleteConfirm m
  · exact startDeleteTemplate_deleteConfirm m
  · rfl
  · rfl
  · rfl

theorem updateNormalKey_deleteConfirm (m : Model) (key : GoStr)
    (hd : key ≠ gs "d") :
    (updateNormalKey m key).1.deleteConfirm = [] := by
  simp only [updateNormalKey, clearConfirms, dispatchNormalKey]
  rw [if_pos hd]
  cases hps : parsePaneShortcut key with
  | some pane => rfl
  | none =>
    simp only []
    split_ifs <;>
      first
        | rfl
        | rw [toggleFocusPane_deleteConfirm]
        | rw [updateEnvironmentPanelKey_deleteConfirm _ _ hd]
        | rw [updateWindowPanelKey_deleteConfirm]
        | rw [updateTemplatesPanelKey_deleteConfirm]

theorem updateKey_normal (m : Model) (msg : KeyMsg)
    (h1 : m.showThemePicker = false) (h2 : m.showShortcuts = false)
    (h3 : m.createMode = false) (h4 : m.templateMode = false)
    (h5 : msg.key ≠ gs "ctrl+t") (h6 : msg.key ≠ gs "?") :
    updateKey m msg = updateNormalKey m msg.key := by
  unfold updateKey
  rw [if_neg h5, if_neg h6, if_neg (by simp [h1]), if_neg (by simp [h2]),
    if_neg (by simp [h3]), if_neg (by simp [h4])]

theorem updateNormalKey_d (m : Model)
    (hfocus : m.focusPane = focusPaneEnvironments) :
    updateNormalKey m (gs "d") =
      startDeleteEnvironment { m with killConfirm := [] } := by
  simp only [updateNormalKey, clearConfirms, dispatchNormalKey]
  rw [if_pos (show gs "d" ≠ gs "x" from by decide),
    if_neg (show ¬gs "d" ≠ gs "d" from by decide)]
  rw [show parsePaneShortcut (gs "d") = none from by decide]
  simp only []
  rw [if_neg (by decide), if_neg (by decide), if_neg (by decide), if_pos hfocus]
  unfold updateEnvironmentPanelKey
  rw [if_neg (by decide), if_neg (by decide), if_neg (by decide),
    if_neg (by decide), if_neg (by decide), if_pos rfl]

theorem startDeleteEnvironment_arm (m : Model) (env : Environment)
    (henv : currentEnv m = some env) (hname : trimSpace env.name ≠ [])
    (hnot : m.deleteConfirm ≠ trimSpace env.name) :
    startDeleteEnvironment m =
      ({ m with
          deleteConfirm := trimSpace env.name,
          status := gs "Press d again to delete environment: " ++ trimSpace env.name },
       []) := by
  unfold startDeleteEnvironment
  rw [henv]
  simp only []
  rw [if_neg hname, if_pos hnot]

theorem startDeleteEnvironment_commit (m : Model) (env : Environment)
    (henv : currentEnv m = some env) (hname : trimSpace env.name ≠ [])
    (harmed : m.deleteConfirm = trimSpace env.name) :
    startDeleteEnvironment m =
      ({ m with deleteConfirm := [], status := gs "Deleting environment..." },
       [.deleteEnvironment (trimSpace env.name)]) := by
  unfold startDeleteEnvironment
  rw [henv]
  simp only []
  rw [if_neg hname, if_neg fun h => h harmed]

/-! ## Selection-invariant lemmas (C10) -/

theorem currentEnv_congr {m m' : Model}
    (he : m'.environments = m.environments) (hs : m'.selectedEnv = m.selectedEnv) :
    currentEnv m' = currentEnv m := by
  unfold currentEnv goIndex
  rw [he, hs]

theorem currentWindowNames_congr {m m' : Model}
    (he : m'.environments = m.environments) (hs : m'.selectedEnv = m.selectedEnv)
    (hw : m'.sessionWindows = m.sessionWindows) :
    currentWindowNames m' = currentWindowNames m := by
  unfold currentWindowNames
  rw [currentEnv_congr he hs, hw]

theorem filteredThemeIndices_congr {m m' : Model}
    (ht : m'.themes = m.themes) (hq : m'.themeQuery = m.themeQuery) :
    filteredThemeIndices m' = filteredThemeIndices m := by
  unfold filteredThemeIndices
  rw [ht, hq]

theorem selInv_congr {m m' : Model} (hf : selFields m' = selFields m)
    (h : SelInv m) : SelInv m' := by
  simp only [selFields, Prod.mk.injEq] at hf
  obtain ⟨he, hse, hsw, hst, hsess, htp, hth, hq, hc⟩ := hf
  have hcw := currentWindowNames_congr he hse hsess
  have hft := filteredThemeIndices_congr hth hq
  unfold SelInv at h ⊢
  rw [he, hse, hsw, hst, htp, hc, hcw, hft]
  exact h

theorem clampMove_bounds (len idx : Int) (h : 1 ≤ len) :
    0 ≤ clampMove len idx ∧ clampMove len idx < len := by
  simp only [clampMove]
  split_ifs <;> omega

theorem clampIdx_bounds (len idx : Int) (h : 1 ≤ len) :
    0 ≤ clampIdx len idx ∧ clampIdx len idx < len := by
  simp only [clampIdx]
  split_ifs <;> omega

theorem length_pos_int {α : Type _} {l : List α} (h : l ≠ []) :
    1 ≤ (l.length : Int) := by
  have := List.length_pos.mpr h
  omega

theorem currentEnv_eq_none_of_nil {m : Model} (h : m.environments = []) :
    currentEnv m = none := by
  unfold currentEnv
  rw [if_pos h]

theorem currentWindowNames_eq_nil {m : Model} (h : m.environments = []) :
    currentWindowNames m = [] := by
  unfold currentWindowNames
  rw [currentEnv_eq_none_of_nil h]

theorem findWithIdx_some_lt {α : Type _} {p : α → Bool} {l : List α} {i : Nat}
    {a : α} (h : findWithIdx p l = some (i, a)) : i < l.length := by
  induction l generalizing i a with
  | nil => rw [findWithIdx] at h; exact Option.noConfusion h
  | cons x xs ih =>
    rw [findWithIdx] at h
    by_cases hx : p x
    · rw [if_pos hx] at h
      simp only [Option.some.injEq, Prod.mk.injEq] at h
      obtain ⟨h1, h2⟩ := h
      simp only [List.length_cons]
      omega
    · rw [if_neg hx] at h
      cases hfx : findWithIdx p xs with
      | none => rw [hfx] at h; exact Option.noConfusion h
      | some jb =>
        rw [hfx] at h
        simp only [Option.map, Option.some.injEq, Prod.mk.injEq] at h
        obtain ⟨h1, h2⟩ := h
        have hj := @ih jb.1 jb.2 (by rw [hfx])
        simp only [List.length_cons]
        omega

theorem toggleFocusPane_selFields (m : Model) :
    selFields (toggleFocusPane m) = selFields m := by
  unfold toggleFocusPane; split_ifs <;> rfl

theorem clearConfirms_selFields (m : Model) (key : GoStr) :
    selFields (clearConfirms m key) = selFields m := by
  simp only [clearConfirms]; split_ifs <;> rfl

theorem startKillSession_selFields (m : Model) :
    selFields (startKillSession m).1 = selFields m := by
  cases hc : currentEnv m with
  | none => simp only [startKillSession, hc]; rfl
  | some env =>
    simp only [startKillSession, hc]
    split_ifs <;> rfl

theorem startDeleteEnvironment_selFields (m : Model) :
    selFields (startDeleteEnvironment m).1 = selFields m := by
  cases hc : currentEnv m with
  | none => simp only [startDeleteEnvironment, hc]; rfl
  | some env =>
    simp only [startDeleteEnvironment, hc]
    split_ifs <;> rfl

theorem startAttachSelected_selFields (m : Model) :
    selFields (startAttachSelected m).1 = selFields m := by
  cases hc : currentEnv m with
  | none => simp only [startAttachSelected, hc]; rfl
  | some env => simp only [startAttachSelected, hc]; rfl

theorem startMoveWindow_selFields (m : Model) (d : Int) :
    selFields (startMoveWindow m d).1 = selFields m := by
  cases hc : currentEnv m with
  | none => simp only [startMoveWindow, hc]; rfl
  | some env =>
    simp only [startMoveWindow, hc]
    split_ifs <;> rfl

theorem startEditTemplateMode_selFields (m : Model) :
    selFields (startEditTemplateMode m).1 = selFields m := by
  cases hc : currentTemplate m with
  | none => simp only [startEditTemplateMode, hc]; rfl
  | some tpl => simp only [startEditTemplateMode, hc]; rfl

theorem startDeleteTemplate_selFields (m : Model) :
    selFields (startDeleteTemplate m).1 = selFields m := by
  cases hc : currentTemplate m with
  | none => simp only [startDeleteTemplate, hc]; rfl
  | some tpl =>
    simp only [startDeleteTemplate, hc]
    split_ifs <;> rfl

theorem shiftCreateField_selFields (m : Model) (d : Int) :
    selFields (shiftCreateField m d) = selFields m := by
  simp only [shiftCreateField]
  split_ifs <;> rfl

theorem moveCreateTemplate_selFields (m : Model) (d : Int) :
    selFields (moveCreateTemplate m d) = selFields m := by
  simp only [moveCreateTemplate]
  split_ifs <;> rfl

theorem backspaceCreateField_selFields (m : Model) :
    selFields (backspaceCreateField m) = selFields m := by
  unfold backspaceCreateField; split_ifs <;> rfl

theorem clearCreateField_selFields (m : Model) :
    selFields (clearCreateField m) = selFields m := by
  unfold clearCreateField; split_ifs <;> rfl

theorem appendCreateField_selFields (m : Model) (s : GoStr) :
    selFields (appendCreateField m s) = selFields m := by
  unfold appendCreateField; split_ifs <;> rfl

theorem appendTemplateField_selFields (m : Model) (s : GoStr) :
    selFields (appendTemplateField m s) = selFields m := by
  unfold appendTemplateField; split_ifs <;> rfl

theorem backspaceTemplateField_selFields (m : Model) :
    selFields (backspaceTemplateField m) = selFields m := by
  unfold backspaceTemplateField; split_ifs <;> rfl

theorem clearTemplateField_selFields (m : Model) :
    selFields (clearTemplateField m) = selFields m := by
  unfold clearTemplateField; split_ifs <;> rfl

theorem configLoadedStatus_selFields (cfgPath : Option GoStr) (m : Model) :
    selFields (configLoadedStatus cfgPath m) = selFields m := by
  cases cfgPath <;> (unfold configLoadedStatus; split_ifs <;> rfl)

theorem normalizeCreateTemplate_eq (m : Model) :
    ∃ ct : Int, normalizeCreateTemplate m = { m with createTemplate := ct } := by
  simp only [normalizeCreateTemplate]
  split_ifs <;> exact ⟨_, rfl⟩

theorem applyCurrentTheme_of_ne (m : Model) (h : m.themes ≠ []) :
    ∃ ti : Int, applyCurrentTheme m = { m with themeIndex := ti } := by
  have h' : (m.themes = []) = False := eq_false h
  simp only [applyCurrentTheme, h', if_false]
  split_ifs
  · exact ⟨0, rfl⟩
  · exact ⟨m.themeIndex, rfl⟩

theorem themeIndexByName_some_themes_ne {m : Model} {name : GoStr} {idx : Int}
    (h : themeIndexByName m name = some idx) : m.themes ≠ [] := by
  intro hnil
  simp only [themeIndexByName] at h
  split_ifs at h
  rw [hnil] at h
  simp [findWithIdx] at h

theorem normalizeSelectionTemplate_eq (m : Model) :
    ∃ st : Int, normalizeSelectionTemplate m = { m with selectedTemplate := st } ∧
      (m.templates = [] → st = 0) ∧
      (m.templates ≠ [] → 0 ≤ st ∧ st < (m.templates.length : Int)) := by
  by_cases hT : m.templates = []
  · refine ⟨0, ?_, fun _ => rfl, fun h => absurd hT h⟩
    simp only [normalizeSelectionTemplate, if_pos hT]
  · refine ⟨clampIdx (m.templates.length : Int) m.selectedTemplate, ?_,
      fun h => absurd h hT, fun _ => clampIdx_bounds _ _ (length_pos_int hT)⟩
    simp only [normalizeSelectionTemplate, if_neg hT]

theorem normalizeSelectionEnvWin_eq (m : Model) :
    ∃ se sw : Int,
      normalizeSelectionEnvWin m =
        { m with selectedEnv := se, selectedWindow := sw } ∧
      (m.environments = [] → se = 0) ∧
      (m.environments ≠ [] → 0 ≤ se ∧ se < (m.environments.length : Int)) ∧
      (currentWindowNames { m with selectedEnv := se } = [] → sw = 0) ∧
      (currentWindowNames { m with selectedEnv := se } ≠ [] →
        0 ≤ sw ∧
          sw < ((currentWindowNames { m with selectedEnv := se }).length : Int)) := by
  by_cases hE : m.environments = []
  · refine ⟨0, 0, ?_, fun _ => rfl, fun h => absurd hE h, fun _ => rfl,
      fun h => absurd (currentWindowNames_eq_nil
        (show ({ m with selectedEnv := (0 : Int) } : Model).environments = [] from hE)) h⟩
    simp only [normalizeSelectionEnvWin, if_pos hE]
  · by_cases hW :
      currentWindowNames
        { m with selectedEnv := clampIdx (m.environments.length : Int) m.selectedEnv } = []
    · refine ⟨clampIdx (m.environments.length : Int) m.selectedEnv, 0, ?_,
        fun h => absurd h hE, fun _ => clampIdx_bounds _ _ (length_pos_int hE),
        fun _ => rfl, fun h => absurd hW h⟩
      simp only [normalizeSelectionEnvWin, if_neg hE]
      rw [if_pos hW]
    · refine ⟨clampIdx (m.environments.length : Int) m.selectedEnv,
        clampIdx
          ((currentWindowNames
            { m with selectedEnv := clampIdx (m.environments.length : Int) m.selectedEnv }).length : Int)
          m.selectedWindow, ?_,
        fun h => absurd h hE, fun _ => clampIdx_bounds _ _ (length_pos_int hE),
        fun h => absurd h hW, fun _ => clampIdx_bounds _ _ (length_pos_int hW)⟩
      simp only [normalizeSelectionEnvWin, if_neg hE]
      rw [if_neg hW]

theorem applyPendingSelect_theme (x : Model) :
    (applyPendingSelect x).themes = x.themes ∧
    (applyPendingSelect x).themeQuery = x.themeQuery ∧
    (applyPendingSelect x).themePickerCursor = x.themePickerCursor := by
  unfold applyPendingSelect
  by_cases hp : trimSpace x.pendingSelect ≠ []
  · rw [if_pos hp]
    cases hf : findWithIdx (fun e => equalFold e.name x.pendingSelect) x.environments with
    | none => exact ⟨rfl, rfl, rfl⟩
    | some p => exact ⟨rfl, rfl, rfl⟩
  · rw [if_neg hp]
    exact ⟨rfl, rfl, rfl⟩

theorem applyPendingTemplateSelect_theme (x : Model) :
    (applyPendingTemplateSelect x).themes = x.themes ∧
    (applyPendingTemplateSelect x).themeQuery = x.themeQuery ∧
    (applyPendingTemplateSelect x).themePickerCursor = x.themePickerCursor := by
  unfold applyPendingTemplateSelect
  by_cases hp : trimSpace x.pendingTemplateSelect ≠ []
  · rw [if_pos hp]
    cases hf : findWithIdx (fun t => equalFold t.name x.pendingTemplateSelect) x.templates with
    | none => exact ⟨rfl, rfl, rfl⟩
    | some p => exact ⟨rfl, rfl, rfl⟩
  · rw [if_neg hp]
    exact ⟨rfl, rfl, rfl⟩

theorem configLoadedTheme_theme (m : Model) (msg : ConfigLoadedMsg) :
    (configLoadedTheme m msg).themes = m.themes ∧
    (configLoadedTheme m msg).themeQuery = m.themeQuery ∧
    (configLoadedTheme m msg).themePickerCursor = m.themePickerCursor := by
  simp only [configLoadedTheme]
  cases hti : themeIndexByName
      { m with environments := msg.envs, templates := msg.templates } msg.theme with
  | none => exact ⟨rfl, rfl, rfl⟩
  | some idx =>
    simp only [Option.elim]
    split_ifs with hii
    · obtain ⟨ti, hact⟩ := applyCurrentTheme_of_ne
        { m with environments := msg.envs, templates := msg.templates, themeIndex := idx }
        (themeIndexByName_some_themes_ne hti)
      rw [hact]
      exact ⟨rfl, rfl, rfl⟩
    · exact ⟨rfl, rfl, rfl⟩

theorem configLoadedPre_theme (m : Model) (msg : ConfigLoadedMsg) :
    (configLoadedPre m msg).themes = m.themes ∧
    (configLoadedPre m msg).themeQuery = m.themeQuery ∧
    (configLoadedPre m msg).themePickerCursor = m.themePickerCursor := by
  obtain ⟨a1, a2, a3⟩ := configLoadedTheme_theme m msg
  obtain ⟨ct, hct⟩ := normalizeCreateTemplate_eq (configLoadedTheme m msg)
  obtain ⟨b1, b2, b3⟩ :=
    applyPendingSelect_theme (normalizeCreateTemplate (configLoadedTheme m msg))
  obtain ⟨c1, c2, c3⟩ := applyPendingTemplateSelect_theme
    (applyPendingSelect (normalizeCreateTemplate (configLoadedTheme m msg)))
  unfold configLoadedPre
  refine ⟨?_, ?_, ?_⟩
  · rw [c1, b1, hct]; exact a1
  · rw [c2, b2, hct]; exact a2
  · rw [c3, b3, hct]; exact a3

theorem themes_ne_of_filtered {m : Model} (h : filteredThemeIndices m ≠ []) :
    m.themes ≠ [] := by
  intro hnil
  apply h
  unfold filteredThemeIndices
  rw [hnil]
  rfl

theorem selInv_normalizeSelection (m : Model)
    (h7 : filteredThemeIndices m = [] → m.themePickerCursor = 0)
    (h8 : filteredThemeIndices m ≠ [] →
      0 ≤ m.themePickerCursor ∧
        m.themePickerCursor < ((filteredThemeIndices m).length : Int)) :
    SelInv (normalizeSelection m) := by
  obtain ⟨se, sw, heq1, he0, heb, hw0, hwb⟩ := normalizeSelectionEnvWin_eq m
  obtain ⟨st, heq2, ht0, htb⟩ := normalizeSelectionTemplate_eq (normalizeSelectionEnvWin m)
  rw [heq1] at heq2 ht0 htb
  unfold normalizeSelection
  rw [heq1, heq2]
  show SelInv { m with selectedEnv := se, selectedWindow := sw, selectedTemplate := st }
  have hcw : currentWindowNames
        { m with selectedEnv := se, selectedWindow := sw, selectedTemplate := st } =
      currentWindowNames { m with selectedEnv := se } :=
    currentWindowNames_congr rfl rfl rfl
  have hft : filteredThemeIndices
        { m with selectedEnv := se, selectedWindow := sw, selectedTemplate := st } =
      filteredThemeIndices m :=
    filteredThemeIndices_congr rfl rfl
  unfold SelInv
  refine ⟨fun h => he0 h, fun h => heb h, ?_, ?_, fun h => ht0 h, fun h => htb h, ?_, ?_⟩
  · intro h; rw [hcw] at h; exact hw0 h
  · intro h; rw [hcw] at h; rw [hcw]; exact hwb h
  · intro h; rw [hft] at h; exact h7 h
  · intro h; rw [hft] at h; rw [hft]; exact h8 h

theorem selInv_moveEnv (m : Model) (d : Int) (h : SelInv m) :
    SelInv (moveEnv m d) := by
  obtain ⟨-, -, -, -, h5, h6, h7, h8⟩ := h
  by_cases hE : m.environments = []
  · unfold moveEnv
    rw [if_pos hE]
    have hcw : currentWindowNames
        ({ m with selectedEnv := 0, selectedWindow := 0 } : Model) = [] :=
      currentWindowNames_eq_nil
        (show ({ m with selectedEnv := (0:Int), selectedWindow := (0:Int) } : Model).environments = [] from hE)
    have hft : filteredThemeIndices
          ({ m with selectedEnv := 0, selectedWindow := 0 } : Model) =
        filteredThemeIndices m :=
      filteredThemeIndices_congr rfl rfl
    unfold SelInv
    refine ⟨fun _ => rfl, fun hne => absurd hE hne, fun _ => rfl,
      fun hne => absurd hcw hne, fun ht => h5 ht, fun ht => h6 ht, ?_, ?_⟩
    · intro hx; rw [hft] at hx; exact h7 hx
    · intro hx; rw [hft] at hx; rw [hft]; exact h8 hx
  · unfold moveEnv
    rw [if_neg hE]
    obtain ⟨hb1, hb2⟩ := clampMove_bounds (m.environments.length : Int)
      (m.selectedEnv + d) (length_pos_int hE)
    have hft : filteredThemeIndices
          ({ m with selectedEnv := clampMove (m.environments.length : Int) (m.selectedEnv + d),
                    selectedWindow := 0 } : Model) =
        filteredThemeIndices m :=
      filteredThemeIndices_congr rfl rfl
    unfold SelInv
    refine ⟨fun hx => absurd hx hE, fun _ => ⟨hb1, hb2⟩, fun _ => rfl, ?_,
      fun ht => h5 ht, fun ht => h6 ht, ?_, ?_⟩
    · intro hne
      dsimp only
      have := List.length_pos.mpr hne
      refine ⟨le_refl 0, ?_⟩
      omega
    · intro hx; rw [hft] at hx; exact h7 hx
    · intro hx; rw [hft] at hx; rw [hft]; exact h8 hx

theorem selInv_moveWindow (m : Model) (d : Int) (h : SelInv m) :
    SelInv (moveWindow m d) := by
  obtain ⟨h1, h2, -, -, h5, h6, h7, h8⟩ := h
  by_cases hW : currentWindowNames m = []
  · simp only [moveWindow]
    rw [if_pos hW]
    have hcw : currentWindowNames ({ m with selectedWindow := 0 } : Model) =
        currentWindowNames m :=
      currentWindowNames_congr rfl rfl rfl
    have hft : filteredThemeIndices ({ m with selectedWindow := 0 } : Model) =
        filteredThemeIndices m :=
      filteredThemeIndices_congr rfl rfl
    unfold SelInv
    refine ⟨fun hx => h1 hx, fun hx => h2 hx, fun _ => rfl, ?_,
      fun ht => h5 ht, fun ht => h6 ht, ?_, ?_⟩
    · intro hne; rw [hcw] at hne; exact absurd hW hne
    · intro hx; rw [hft] at hx; exact h7 hx
    · intro hx; rw [hft] at hx; rw [hft]; exact h8 hx
  · simp only [moveWindow]
    rw [if_neg hW]
    obtain ⟨hb1, hb2⟩ := clampMove_bounds ((currentWindowNames m).length : Int)
      (m.selectedWindow + d) (length_pos_int hW)
    have hcw : currentWindowNames
          ({ m with selectedWindow :=
              clampMove ((currentWindowNames m).length : Int) (m.selectedWindow + d) } : Model) =
        currentWindowNames m :=
      currentWindowNames_congr rfl rfl rfl
    have hft : filteredThemeIndices
          ({ m with selectedWindow :=
              clampMove ((currentWindowNames m).length : Int) (m.selectedWindow + d) } : Model) =
        filteredThemeIndices m :=
      filteredThemeIndices_congr rfl rfl
    unfold SelInv
    refine ⟨fun hx => h1 hx, fun hx => h2 hx, ?_, ?_,
      fun ht => h5 ht, fun ht => h6 ht, ?_, ?_⟩
    · intro hx; rw [hcw] at hx; exact absurd hx hW
    · intro _; rw [hcw]; exact ⟨hb1, hb2⟩
    · intro hx; rw [hft] at hx; exact h7 hx
    · intro hx; rw [hft] at hx; rw [hft]; exact h8 hx

theorem selInv_moveTemplate (m : Model) (d : Int) (h : SelInv m) :
    SelInv (moveTemplate m d) := by
  obtain ⟨h1, h2, h3, h4, -, -, h7, h8⟩ := h
  by_cases hT : m.templates = []
  · unfold moveTemplate
    rw [if_pos hT]
    have hcw : currentWindowNames ({ m with selectedTemplate := 0 } : Model) =
        currentWindowNames m :=
      currentWindowNames_congr rfl rfl rfl
    have hft : filteredThemeIndices ({ m with selectedTemplate := 0 } : Model) =
        filteredThemeIndices m :=
      filteredThemeIndices_congr rfl rfl
    unfold SelInv
    refine ⟨fun hx => h1 hx, fun hx => h2 hx, ?_, ?_, fun _ => rfl,
      fun hne => absurd hT hne, ?_, ?_⟩
    · intro hx; rw [hcw] at hx; exact h3 hx
    · intro hx; rw [hcw] at hx; rw [hcw]; exact h4 hx
    · intro hx; rw [hft] at hx; exact h7 hx
    · intro hx; rw [hft] at hx; rw [hft]; exact h8 hx
  · unfold moveTemplate
    rw [if_neg hT]
    obtain ⟨hb1, hb2⟩ := clampMove_bounds (m.templates.length : Int)
      (m.selectedTemplate + d) (length_pos_int hT)
    have hcw : currentWindowNames
          ({ m with selectedTemplate :=
              clampMove (m.templates.length : Int) (m.selectedTemplate + d) } : Model) =
        currentWindowNames m :=
      currentWindowNames_congr rfl rfl rfl
    have hft : filteredThemeIndices
          ({ m with selectedTemplate :=
              clampMove (m.templates.length : Int) (m.selectedTemplate + d) } : Model) =
        filteredThemeIndices m :=
      filteredThemeIndices_congr rfl rfl
    unfold SelInv
    refine ⟨fun hx => h1 hx, fun hx => h2 hx, ?_, ?_, fun hx => absurd hx hT,
      fun _ => ⟨hb1, hb2⟩, ?_, ?_⟩
    · intro hx; rw [hcw] at hx; exact h3 hx
    · intro hx; rw [hcw] at hx; rw [hcw]; exact h4 hx
    · intro hx; rw [hft] at hx; exact h7 hx
    · intro hx; rw [hft] at hx; rw [hft]; exact h8 hx

theorem selInv_of_parts (x base : Model) (h : SelInv base)
    (he : x.environments = base.environments)
    (hse : x.selectedEnv = base.selectedEnv)
    (hsw : x.selectedWindow = base.selectedWindow)
    (hst : x.selectedTemplate = base.selectedTemplate)
    (hsess : x.sessionWindows = base.sessionWindows)
    (htp : x.templates = base.templates)
    (h7 : filteredThemeIndices x = [] → x.themePickerCursor = 0)
    (h8 : filteredThemeIndices x ≠ [] →
      0 ≤ x.themePickerCursor ∧
        x.themePickerCursor < ((filteredThemeIndices x).length : Int)) :
    SelInv x := by
  obtain ⟨h1, h2, h3, h4, h5, h6, -, -⟩ := h
  have hcw := currentWindowNames_congr he hse hsess
  unfold SelInv
  refine ⟨?_, ?_, ?_, ?_, ?_, ?_, h7, h8⟩
  · intro hx; rw [he] at hx; rw [hse]; exact h1 hx
  · intro hx; rw [he] at hx; rw [hse, he]; exact h2 hx
  · intro hx; rw [hcw] at hx; rw [hsw]; exact h3 hx
  · intro hx; rw [hcw] at hx; rw [hsw, hcw]; exact h4 hx
  · intro hx; rw [htp] at hx; rw [hst]; exact h5 hx
  · intro hx; rw [htp] at hx; rw [hst, htp]; exact h6 hx

theorem normalizeThemePickerCursor_eq (x : Model) :
    ∃ c : Int, normalizeThemePickerCursor x = { x with themePickerCursor := c } ∧
      (filteredThemeIndices x = [] → c = 0) ∧
      (filteredThemeIndices x ≠ [] →
        0 ≤ c ∧ c < ((filteredThemeIndices x).length : Int)) := by
  by_cases hF : filteredThemeIndices x = []
  · refine ⟨0, ?_, fun _ => rfl, fun h => absurd hF h⟩
    simp only [normalizeThemePickerCursor]
    rw [if_pos hF]
  · refine ⟨clampMove ((filteredThemeIndices x).length : Int) x.themePickerCursor, ?_,
      fun h => absurd h hF, fun _ => clampMove_bounds _ _ (length_pos_int hF)⟩
    simp only [normalizeThemePickerCursor]
    rw [if_neg hF]

theorem selInv_ntpc (m x : Model) (h : SelInv m)
    (he : x.environments = m.environments) (hse : x.selectedEnv = m.selectedEnv)
    (hsw : x.selectedWindow = m.selectedWindow)
    (hst : x.selectedTemplate = m.selectedTemplate)
    (hsess : x.sessionWindows = m.sessionWindows) (htp : x.templates = m.templates) :
    SelInv (normalizeThemePickerCursor x) := by
  obtain ⟨c, hc, hc0, hcb⟩ := normalizeThemePickerCursor_eq x
  rw [hc]
  have hft : filteredThemeIndices { x with themePickerCursor := c } =
      filteredThemeIndices x := filteredThemeIndices_congr rfl rfl
  refine selInv_of_parts _ m h he hse hsw hst hsess htp ?_ ?_
  · intro hx; rw [hft] at hx; exact hc0 hx
  · intro hx
    rw [hft] at hx
    rw [hft]
    exact hcb hx

theorem filteredThemeIndices_set_cursor (x : Model) (c : Int) :
    filteredThemeIndices { x with themePickerCursor := c } = filteredThemeIndices x :=
  filteredThemeIndices_congr rfl rfl

theorem list_castBind_length (l : List Nat) :
    ((do let a ← l; pure ((a : Int))) : List Int).length = l.length := by
  induction l with
  | nil => rfl
  | cons x xs ih => simpa using ih

theorem openThemePicker_eq (m : Model) :
    ∃ c : Int,
      openThemePicker m =
        { m with
            showThemePicker := true,
            showShortcuts := false,
            themeQuery := [],
            themePickerCursor := c } ∧
      (filteredThemeIndices { m with themeQuery := ([] : GoStr) } = [] → c = 0) ∧
      (filteredThemeIndices { m with themeQuery := ([] : GoStr) } ≠ [] →
        0 ≤ c ∧
          c < ((filteredThemeIndices { m with themeQuery := ([] : GoStr) }).length : Int)) := by
  simp only [openThemePicker]
  split
  · rename_i i snd heq
    have hlen := findWithIdx_some_lt heq
    rw [list_castBind_length] at hlen
    have hlen' : i < (filteredThemeIndices { m with themeQuery := ([] : GoStr) }).length :=
      hlen
    refine ⟨(i : Int), rfl, ?_, ?_⟩
    · intro hx
      rw [hx] at hlen'
      simp at hlen'
    · intro _
      exact ⟨by omega, by omega⟩
  · refine ⟨0, rfl, fun _ => rfl, ?_⟩
    intro hne
    have := List.length_pos.mpr hne
    exact ⟨le_refl 0, by omega⟩

theorem selInv_openThemePicker (m : Model) (h : SelInv m) :
    SelInv (openThemePicker m) := by
  obtain ⟨c, heq, hc0, hcb⟩ := openThemePicker_eq m
  rw [heq]
  have hft : filteredThemeIndices
      ({ m with
          showThemePicker := true,
          showShortcuts := false,
          themeQuery := [],
          themePickerCursor := c } : Model) =
      filteredThemeIndices { m with themeQuery := ([] : GoStr) } :=
    filteredThemeIndices_congr rfl rfl
  refine selInv_of_parts _ m h rfl rfl rfl rfl rfl rfl ?_ ?_
  · intro hx; rw [hft] at hx; exact hc0 hx
  · intro hx
    rw [hft] at hx
    rw [hft]
    exact hcb hx

theorem selInv_updateThemePickerMode (m : Model) (msg : KeyMsg) (h : SelInv m) :
    SelInv (updateThemePickerMode m msg).1 := by
  simp only [updateThemePickerMode]
  by_cases h1 : msg.key = gs "esc"
  · rw [if_pos h1]; exact selInv_congr rfl h
  rw [if_neg h1]
  by_cases h2 : msg.key = gs "q" ∨ msg.key = gs "ctrl+c"
  · rw [if_pos h2]; exact h
  rw [if_neg h2]
  by_cases h3 : msg.key = gs "up" ∨ msg.key = gs "k"
  · rw [if_pos h3]; exact selInv_ntpc m _ h rfl rfl rfl rfl rfl rfl
  rw [if_neg h3]
  by_cases h4 : msg.key = gs "down" ∨ msg.key = gs "j"
  · rw [if_pos h4]; exact selInv_ntpc m _ h rfl rfl rfl rfl rfl rfl
  rw [if_neg h4]
  by_cases h5 : msg.key = gs "backspace" ∨ msg.key = gs "ctrl+h"
  · rw [if_pos h5]; exact selInv_ntpc m _ h rfl rfl rfl rfl rfl rfl
  rw [if_neg h5]
  by_cases h6 : msg.key = gs "ctrl+u"
  · rw [if_pos h6]; exact selInv_ntpc m _ h rfl rfl rfl rfl rfl rfl
  rw [if_neg h6]
  by_cases h7 : msg.key = gs "enter"
  · rw [if_pos h7]
    by_cases h7a : filteredThemeIndices m = []
    · rw [if_pos h7a]; exact selInv_congr rfl h
    · rw [if_neg h7a]
      obtain ⟨ti, hact⟩ := applyCurrentTheme_of_ne
        { m with themeIndex :=
            ((goIndex (filteredThemeIndices m) m.themePickerCursor 0 : Nat) : Int) }
        (themes_ne_of_filtered h7a)
      rw [hact]
      exact selInv_congr rfl h
  rw [if_neg h7]
  by_cases h8 : msg.runes ≠ [] ∧ msg.alt = false
  · rw [if_pos h8]; exact selInv_ntpc m _ h rfl rfl rfl rfl rfl rfl
  · rw [if_neg h8]; exact h

theorem selInv_updateCreateMode (m : Model) (msg : KeyMsg) (h : SelInv m) :
    SelInv (updateCreateMode m msg).1 := by
  simp only [updateCreateMode]
  by_cases h1 : msg.key = gs "ctrl+c"
  · rw [if_pos h1]; exact h
  rw [if_neg h1]
  by_cases h2 : msg.key = gs "esc"
  · rw [if_pos h2]; exact selInv_congr rfl h
  rw [if_neg h2]
  by_cases h3 : msg.key = gs "tab" ∨ msg.key = gs "down"
  · rw [if_pos h3]; exact selInv_congr (shiftCreateField_selFields m 1) h
  rw [if_neg h3]
  by_cases h4 : msg.key = gs "shift+tab" ∨ msg.key = gs "up"
  · rw [if_pos h4]; exact selInv_congr (shiftCreateField_selFields m (-1)) h
  rw [if_neg h4]
  by_cases h5 : msg.key = gs "left"
  · rw [if_pos h5]
    by_cases h5a : m.createField = createFieldTemplate
    · rw [if_pos h5a]; exact selInv_congr (moveCreateTemplate_selFields m (-1)) h
    · rw [if_neg h5a]; exact h
  rw [if_neg h5]
  by_cases h6 : msg.key = gs "right"
  · rw [if_pos h6]
    by_cases h6a : m.createField = createFieldTemplate
    · rw [if_pos h6a]; exact selInv_congr (moveCreateTemplate_selFields m 1) h
    · rw [if_neg h6a]; exact h
  rw [if_neg h6]
  by_cases h7 : msg.key = gs "backspace" ∨ msg.key = gs "ctrl+h"
  · rw [if_pos h7]; exact selInv_congr (backspaceCreateField_selFields m) h
  rw [if_neg h7]
  by_cases h8 : msg.key = gs "ctrl+u"
  · rw [if_pos h8]; exact selInv_congr (clearCreateField_selFields m) h
  rw [if_neg h8]
  by_cases h9 : msg.key = gs "enter"
  · rw [if_pos h9]
    by_cases h9a : isCreateLastField m = false
    · rw [if_pos h9a]; exact selInv_congr (shiftCreateField_selFields m 1) h
    rw [if_neg h9a]
    by_cases h9b : trimSpace m.createName = [] ∨ trimSpace m.createRoot = []
    · rw [if_pos h9b]
      by_cases h9c : trimSpace m.createName = []
      · rw [if_pos h9c]; exact selInv_congr rfl h
      · rw [if_neg h9c]; exact selInv_congr rfl h
    rw [if_neg h9b]
    cases hrw : resolveCreateWindows m with
    | error e =>
      dsimp only
      by_cases h9d : isCustomTemplateSelected
          { m with status := gs "Template error: " ++ e }
      · rw [if_pos h9d]; exact selInv_congr rfl h
      · rw [if_neg h9d]; exact selInv_congr rfl h
    | ok windows =>
      dsimp only
      exact selInv_congr rfl h
  rw [if_neg h9]
  by_cases h10 : msg.runes ≠ [] ∧ msg.alt = false
  · rw [if_pos h10]; exact selInv_congr (appendCreateField_selFields m msg.runes) h
  · rw [if_neg h10]; exact h

theorem selInv_updateTemplateMode (m : Model) (msg : KeyMsg) (h : SelInv m) :
    SelInv (updateTemplateMode m msg).1 := by
  simp only [updateTemplateMode]
  by_cases h1 : msg.key = gs "ctrl+c"
  · rw [if_pos h1]; exact h
  rw [if_neg h1]
  by_cases h2 : msg.key = gs "esc"
  · rw [if_pos h2]; exact selInv_congr rfl h
  rw [if_neg h2]
  by_cases h3 : msg.key = gs "tab" ∨ msg.key = gs "down" ∨ msg.key = gs "up" ∨
      msg.key = gs "shift+tab"
  · rw [if_pos h3]
    by_cases h3a : m.templateField = templateFieldName
    · rw [if_pos h3a]; exact selInv_congr rfl h
    · rw [if_neg h3a]; exact selInv_congr rfl h
  rw [if_neg h3]
  by_cases h4 : msg.key = gs "backspace" ∨ msg.key = gs "ctrl+h"
  · rw [if_pos h4]; exact selInv_congr (backspaceTemplateField_selFields m) h
  rw [if_neg h4]
  by_cases h5 : msg.key = gs "ctrl+u"
  · rw [if_pos h5]; exact selInv_congr (clearTemplateField_selFields m) h
  rw [if_neg h5]
  by_cases h6 : msg.key = gs "enter"
  · rw [if_pos h6]
    by_cases h6a : m.templateField = templateFieldName
    · rw [if_pos h6a]; exact selInv_congr rfl h
    rw [if_neg h6a]
    by_cases h6b : trimSpace m.templateName = []
    · rw [if_pos h6b]; exact selInv_congr rfl h
    rw [if_neg h6b]
    cases hrw : parseWindowSpec m.templateSpec with
    | error err =>
      dsimp only
      exact selInv_congr rfl h
    | ok windows =>
      dsimp only
      exact selInv_congr rfl h
  rw [if_neg h6]
  by_cases h7 : msg.runes ≠ [] ∧ msg.alt = false
  · rw [if_pos h7]; exact selInv_congr (appendTemplateField_selFields m msg.runes) h
  · rw [if_neg h7]; exact h

theorem selInv_updateEnvironmentPanelKey (m : Model) (key : GoStr) (h : SelInv m) :
    SelInv (updateEnvironmentPanelKey m key).1 := by
  simp only [updateEnvironmentPanelKey]
  by_cases h1 : key = gs "up" ∨ key = gs "k"
  · rw [if_pos h1]; exact selInv_moveEnv m (-1) h
  rw [if_neg h1]
  by_cases h2 : key = gs "down" ∨ key = gs "j"
  · rw [if_pos h2]; exact selInv_moveEnv m 1 h
  rw [if_neg h2]
  by_cases h3 : key = gs "a"
  · rw [if_pos h3]; exact selInv_congr rfl h
  rw [if_neg h3]
  by_cases h4 : key = gs "t"
  · rw [if_pos h4]; exact selInv_congr rfl h
  rw [if_neg h4]
  by_cases h5 : key = gs "x"
  · rw [if_pos h5]; exact selInv_congr (startKillSession_selFields m) h
  rw [if_neg h5]
  by_cases h6 : key = gs "d"
  · rw [if_pos h6]; exact selInv_congr (startDeleteEnvironment_selFields m) h
  rw [if_neg h6]
  by_cases h7 : key = gs "left" ∨ key = gs "right" ∨ key = gs "h" ∨ key = gs "l"
  · rw [if_pos h7]; exact selInv_congr rfl h
  rw [if_neg h7]
  by_cases h8 : key = gs "H" ∨ key = gs "L"
  · rw [if_pos h8]; exact selInv_congr rfl h
  rw [if_neg h8]
  by_cases h9 : key = gs "enter"
  · rw [if_pos h9]; exact selInv_congr (startAttachSelected_selFields m) h
  · rw [if_neg h9]; exact h

theorem selInv_updateWindowPanelKey (m : Model) (key : GoStr) (h : SelInv m) :
    SelInv (updateWindowPanelKey m key).1 := by
  simp only [updateWindowPanelKey]
  by_cases h1 : key = gs "left" ∨ key = gs "h" ∨ key = gs "up" ∨ key = gs "k"
  · rw [if_pos h1]; exact selInv_moveWindow m (-1) h
  rw [if_neg h1]
  by_cases h2 : key = gs "right" ∨ key = gs "l" ∨ key = gs "down" ∨ key = gs "j"
  · rw [if_pos h2]; exact selInv_moveWindow m 1 h
  rw [if_neg h2]
  by_cases h3 : key = gs "x" ∨ key = gs "d"
  · rw [if_pos h3]; exact selInv_congr rfl h
  rw [if_neg h3]
  by_cases h4 : key = gs "a"
  · rw [if_pos h4]; exact selInv_congr rfl h
  rw [if_neg h4]
  by_cases h5 : key = gs "t" ∨ key = gs "e" ∨ key = gs "c"
  · rw [if_pos h5]; exact selInv_congr rfl h
  rw [if_neg h5]
  by_cases h6 : key = gs "H"
  · rw [if_pos h6]; exact selInv_congr (startMoveWindow_selFields m (-1)) h
  rw [if_neg h6]
  by_cases h7 : key = gs "L"
  · rw [if_pos h7]; exact selInv_congr (startMoveWindow_selFields m 1) h
  rw [if_neg h7]
  by_cases h8 : key = gs "enter"
  · rw [if_pos h8]; exact selInv_congr (startAttachSelected_selFields m) h
  · rw [if_neg h8]; exact h

theorem selInv_updateTemplatesPanelKey (m : Model) (key : GoStr) (h : SelInv m) :
    SelInv (updateTemplatesPanelKey m key).1 := by
  simp only [updateTemplatesPanelKey]
  by_cases h1 : key = gs "up" ∨ key = gs "k"
  · rw [if_pos h1]; exact selInv_moveTemplate m (-1) h
  rw [if_neg h1]
  by_cases h2 : key = gs "down" ∨ key = gs "j"
  · rw [if_pos h2]; exact selInv_moveTemplate m 1 h
  rw [if_neg h2]
  by_cases h3 : key = gs "a"
  · rw [if_pos h3]; exact selInv_congr rfl h
  rw [if_neg h3]
  by_cases h4 : key = gs "e" ∨ key = gs "enter"
  · rw [if_pos h4]; exact selInv_congr (startEditTemplateMode_selFields m) h
  rw [if_neg h4]
  by_cases h5 : key = gs "d"
  · rw [if_pos h5]; exact selInv_congr (startDeleteTemplate_selFields m) h
  rw [if_neg h5]
  by_cases h6 : key = gs "left" ∨ key = gs "right" ∨ key = gs "h" ∨ key = gs "l"
  · rw [if_pos h6]; exact selInv_congr rfl h
  rw [if_neg h6]
  by_cases h7 : key = gs "x"
  · rw [if_pos h7]; exact selInv_congr rfl h
  · rw [if_neg h7]; exact h

theorem selInv_dispatchNormalKey (m : Model) (key : GoStr) (h : SelInv m) :
    SelInv (dispatchNormalKey m key).1 := by
  simp only [dispatchNormalKey]
  cases hps : parsePaneShortcut key with
  | some pane => exact selInv_congr rfl h
  | none =>
    dsimp only
    by_cases h1 : key = gs "q" ∨ key = gs "ctrl+c"
    · rw [if_pos h1]; exact h
    rw [if_neg h1]
    by_cases h2 : key = gs "tab"
    · rw [if_pos h2]; exact selInv_congr (toggleFocusPane_selFields m) h
    rw [if_neg h2]
    by_cases h3 : key = gs "r"
    · rw [if_pos h3]; exact selInv_congr rfl h
    rw [if_neg h3]
    by_cases h4 : m.focusPane = focusPaneEnvironments
    · rw [if_pos h4]; exact selInv_updateEnvironmentPanelKey m key h
    rw [if_neg h4]
    by_cases h5 : m.focusPane = focusPaneWindows
    · rw [if_pos h5]; exact selInv_updateWindowPanelKey m key h
    · rw [if_neg h5]; exact selInv_updateTemplatesPanelKey m key h

theorem selInv_updateNormalKey (m : Model) (key : GoStr) (h : SelInv m) :
    SelInv (updateNormalKey m key).1 := by
  unfold updateNormalKey
  exact selInv_dispatchNormalKey _ key (selInv_congr (clearConfirms_selFields m key) h)

theorem selInv_updateKey (m : Model) (msg : KeyMsg) (h : SelInv m) :
    SelInv (updateKey m msg).1 := by
  simp only [updateKey]
  by_cases h1 : msg.key = gs "ctrl+t"
  · rw [if_pos h1]
    by_cases h1a : m.showThemePicker = true
    · rw [if_pos h1a]; exact selInv_congr rfl h
    · rw [if_neg h1a]; exact selInv_congr rfl (selInv_openThemePicker m h)
  rw [if_neg h1]
  by_cases h2 : msg.key = gs "?"
  · rw [if_pos h2]
    by_cases h2a : (!m.showShortcuts) = true
    · rw [if_pos h2a]; exact selInv_congr rfl h
    · rw [if_neg h2a]; exact selInv_congr rfl h
  rw [if_neg h2]
  by_cases h3 : m.showThemePicker = true
  · rw [if_pos h3]; exact selInv_updateThemePickerMode m msg h
  rw [if_neg h3]
  by_cases h4 : m.showShortcuts = true
  · rw [if_pos h4]
    by_cases h4a : msg.key = gs "esc"
    · rw [if_pos h4a]; exact selInv_congr rfl h
    rw [if_neg h4a]
    by_cases h4b : msg.key = gs "q" ∨ msg.key = gs "ctrl+c"
    · rw [if_pos h4b]; exact h
    · rw [if_neg h4b]; exact h
  rw [if_neg h4]
  by_cases h5 : m.createMode = true
  · rw [if_pos h5]; exact selInv_updateCreateMode m msg h
  rw [if_neg h5]
  by_cases h6 : m.templateMode = true
  · rw [if_pos h6]; exact selInv_updateTemplateMode m msg h
  · rw [if_neg h6]; exact selInv_updateNormalKey m msg.key h

theorem selInv_updateConfigLoaded (cfgPath : Option GoStr) (m : Model)
    (cmsg : ConfigLoadedMsg) (h : SelInv m) :
    SelInv (updateConfigLoaded cfgPath m cmsg).1 := by
  unfold updateConfigLoaded
  cases herr : cmsg.err with
  | some e => exact selInv_congr rfl h
  | none =>
    dsimp only
    obtain ⟨-, -, -, -, -, -, h7, h8⟩ := h
    obtain ⟨t1, t2, t3⟩ := configLoadedPre_theme m cmsg
    have hft : filteredThemeIndices (configLoadedPre m cmsg) = filteredThemeIndices m :=
      filteredThemeIndices_congr t1 t2
    refine selInv_congr (configLoadedStatus_selFields cfgPath _) ?_
    refine selInv_normalizeSelection _ ?_ ?_
    · intro hx
      rw [hft] at hx
      rw [t3]
      exact h7 hx
    · intro hx
      rw [hft] at hx
      rw [t3, hft]
      exact h8 hx

theorem selInv_update (cfgPath : Option GoStr) (m : Model) (msg : Msg)
    (h : SelInv m) : SelInv (update cfgPath m msg).1 := by
  cases msg with
  | windowSize w ht => exact selInv_congr rfl h
  | key kmsg => exact selInv_updateKey m kmsg h
  | configLoaded cmsg => exact selInv_updateConfigLoaded cfgPath m cmsg h
  | sessionsLoaded names windows err =>
    cases err with
    | some e => exact selInv_congr rfl h
    | none =>
      obtain ⟨-, -, -, -, -, -, h7, h8⟩ := h
      have hft : filteredThemeIndices
            ({ m with sessions := names, sessionWindows := windows } : Model) =
          filteredThemeIndices m := filteredThemeIndices_congr rfl rfl
      refine selInv_normalizeSelection _ ?_ ?_
      · intro hx
        rw [hft] at hx
        exact h7 hx
      · intro hx
        rw [hft] at hx
        rw [hft]
        exact h8 hx
  | panePreview session window content process => exact selInv_congr rfl h
  | themePersisted name err => cases err <;> exact selInv_congr rfl h
  | attachReady target err => cases err <;> exact selInv_congr rfl h
  | attachDone err => cases err <;> exact selInv_congr rfl h
  | environmentCreated env sessionErr err =>
    cases err with
    | some e => exact selInv_congr rfl h
    | none => cases sessionErr <;> exact selInv_congr rfl h
  | windowMoved envName direction sessionErr err =>
    simp only [update]
    cases err with
    | some e => exact selInv_congr rfl h
    | none =>
      have hmw : SelInv (if direction < 0 then moveWindow m (-1) else moveWindow m 1) := by
        by_cases hd : direction < 0
        · rw [if_pos hd]; exact selInv_moveWindow m (-1) h
        · rw [if_neg hd]; exact selInv_moveWindow m 1 h
      cases sessionErr with
      | some e => exact selInv_congr rfl hmw
      | none => exact selInv_congr (by split_ifs <;> rfl) hmw
  | templateSaved name edited err =>
    simp only [update]
    cases err with
    | some e => exact selInv_congr rfl h
    | none => exact selInv_congr (by split_ifs <;> rfl) h
  | templateDeleted name err => cases err <;> exact selInv_congr rfl h
  | sessionKilled session err => cases err <;> exact selInv_congr rfl h
  | environmentDeleted environment session killed err =>
    simp only [update]
    cases err with
    | some e => exact selInv_congr rfl h
    | none => exact selInv_congr (by split_ifs <;> rfl) h

theorem selInv_newModel : SelInv newModel := by decide

theorem selInv_reachable (cfgPath : Option GoStr) (m : Model)
    (h : Reachable cfgPath m) : SelInv m := by
  induction h with
  | init => exact selInv_newModel
  | step hr msg ih => exact selInv_update _ _ msg ih

/-! ## Load-commutation lemmas (C5) -/

theorem clampIdx_of_bounds (len i : Int) (h1 : 0 ≤ i) (h2 : i < len) :
    clampIdx len i = i := by
  simp only [clampIdx]
  split_ifs <;> omega

theorem envClamp_congr {x y : Model} (he : y.environments = x.environments)
    (hs : y.selectedEnv = x.selectedEnv) : envClamp y = envClamp x := by
  unfold envClamp
  rw [he, hs]

theorem tplClamp_congr {x y : Model} (ht : y.templates = x.templates)
    (hs : y.selectedTemplate = x.selectedTemplate) : tplClamp y = tplClamp x := by
  unfold tplClamp
  rw [ht, hs]

theorem envClamp_stable {x y : Model} (he : y.environments = x.environments)
    (hs : y.selectedEnv = envClamp x) : envClamp y = envClamp x := by
  by_cases hE : x.environments = []
  · unfold envClamp
    rw [he, if_pos hE, if_pos hE]
  · obtain ⟨b1, b2⟩ := clampIdx_bounds (x.environments.length : Int) x.selectedEnv
      (length_pos_int hE)
    have hcx : envClamp x = clampIdx (x.environments.length : Int) x.selectedEnv := by
      unfold envClamp
      rw [if_neg hE]
    unfold envClamp
    rw [he, if_neg hE, hs, hcx, clampIdx_of_bounds _ _ b1 b2, if_neg hE]

theorem tplClamp_stable {x y : Model} (ht : y.templates = x.templates)
    (hs : y.selectedTemplate = tplClamp x) : tplClamp y = tplClamp x := by
  by_cases hT : x.templates = []
  · unfold tplClamp
    rw [ht, if_pos hT, if_pos hT]
  · obtain ⟨b1, b2⟩ := clampIdx_bounds (x.templates.length : Int) x.selectedTemplate
      (length_pos_int hT)
    have hcx : tplClamp x = clampIdx (x.templates.length : Int) x.selectedTemplate := by
      unfold tplClamp
      rw [if_neg hT]
    unfold tplClamp
    rw [ht, if_neg hT, hs, hcx, clampIdx_of_bounds _ _ b1 b2, if_neg hT]

theorem normalizeSelection_explicit (x : Model) :
    normalizeSelection x =
      { x with selectedEnv := envClamp x, selectedWindow := winClamp x,
               selectedTemplate := tplClamp x } := by
  unfold normalizeSelection
  by_cases hE : x.environments = []
  · have hEC : envClamp x = 0 := by rw [envClamp, if_pos hE]
    have hWC : winClamp x = 0 := by
      simp only [winClamp]
      rw [if_pos hE]
    have hS1 : normalizeSelectionEnvWin x =
        { x with selectedEnv := 0, selectedWindow := 0 } := by
      rw [normalizeSelectionEnvWin, if_pos hE]
    rw [hEC, hWC, hS1]
    by_cases hT : x.templates = []
    · have hTC : tplClamp x = 0 := by rw [tplClamp, if_pos hT]
      rw [hTC]
      simp only [normalizeSelectionTemplate]
      rw [if_pos (show ({ x with
          selectedEnv := (0:Int),
          selectedWindow := (0:Int) } : Model).templates = [] from hT)]
    · have hTC : tplClamp x = clampIdx (x.templates.length : Int) x.selectedTemplate := by
        rw [tplClamp, if_neg hT]
      rw [hTC]
      simp only [normalizeSelectionTemplate]
      rw [if_neg (show ¬({ x with
          selectedEnv := (0:Int),
          selectedWindow := (0:Int) } : Model).templates = [] from hT)]
  · have hEC : envClamp x = clampIdx (x.environments.length : Int) x.selectedEnv := by
      rw [envClamp, if_neg hE]
    by_cases hW : currentWindowNames
        { x with selectedEnv := clampIdx (x.environments.length : Int) x.selectedEnv } = []
    · have hWC : winClamp x = 0 := by
        simp only [winClamp]
        rw [if_neg hE, hEC, if_pos hW]
      have hS1 : normalizeSelectionEnvWin x =
          { x with selectedEnv := clampIdx (x.environments.length : Int) x.selectedEnv,
                   selectedWindow := 0 } := by
        simp only [normalizeSelectionEnvWin]
        rw [if_neg hE, if_pos hW]
      rw [hEC, hWC, hS1]
      by_cases hT : x.templates = []
      · have hTC : tplClamp x = 0 := by rw [tplClamp, if_pos hT]
        rw [hTC]
        simp only [normalizeSelectionTemplate]
        rw [if_pos (show ({ x with
            selectedEnv := clampIdx (x.environments.length : Int) x.selectedEnv,
            selectedWindow := (0:Int) } : Model).templates = [] from hT)]
      · have hTC : tplClamp x = clampIdx (x.templates.length : Int) x.selectedTemplate := by
          rw [tplClamp, if_neg hT]
        rw [hTC]
        simp only [normalizeSelectionTemplate]
        rw [if_neg (show ¬({ x with
            selectedEnv := clampIdx (x.environments.length : Int) x.selectedEnv,
            selectedWindow := (0:Int) } : Model).templates = [] from hT)]
    · have hWC : winClamp x = clampIdx
          ((currentWindowNames { x with
              selectedEnv := clampIdx (x.environments.length : Int) x.selectedEnv }).length : Int)
          x.selectedWindow := by
        simp only [winClamp]
        rw [if_neg hE, hEC, if_neg hW]
      have hS1 : normalizeSelectionEnvWin x =
          { x with selectedEnv := clampIdx (x.environments.length : Int) x.selectedEnv,
                   selectedWindow := clampIdx
                     ((currentWindowNames { x with
                         selectedEnv := clampIdx (x.environments.length : Int) x.selectedEnv }).length : Int)
                     x.selectedWindow } := by
        simp only [normalizeSelectionEnvWin]
        rw [if_neg hE, if_neg hW]
      rw [hEC, hWC, hS1]
      by_cases hT : x.templates = []
      · have hTC : tplClamp x = 0 := by rw [tplClamp, if_pos hT]
        rw [hTC]
        simp only [normalizeSelectionTemplate]
        rw [if_pos (show ({ x with
            selectedEnv := clampIdx (x.environments.length : Int) x.selectedEnv,
            selectedWindow := clampIdx
              ((currentWindowNames { x with
                  selectedEnv := clampIdx (x.environments.length : Int) x.selectedEnv }).length : Int)
              x.selectedWindow } : Model).templates = [] from hT)]
      · have hTC : tplClamp x = clampIdx (x.templates.length : Int) x.selectedTemplate := by
          rw [tplClamp, if_neg hT]
        rw [hTC]
        simp only [normalizeSelectionTemplate]
        rw [if_neg (show ¬({ x with
            selectedEnv := clampIdx (x.environments.length : Int) x.selectedEnv,
            selectedWindow := clampIdx
              ((currentWindowNames { x with
                  selectedEnv := clampIdx (x.environments.length : Int) x.selectedEnv }).length : Int)
              x.selectedWindow } : Model).templates = [] from hT)]

theorem themeIndexByName_congr {x y : Model} (hth : y.themes = x.themes)
    (name : GoStr) : themeIndexByName y name = themeIndexByName x name := by
  unfold themeIndexByName
  rw [hth]

theorem applyCurrentTheme_untouched (x : Model) (n : List GoStr)
    (w : List (GoStr × List GoStr)) (sv : Int) :
    applyCurrentTheme { x with sessions := n, sessionWindows := w, selectedWindow := sv } =
      { applyCurrentTheme x with
        sessions := n,
        sessionWindows := w,
        selectedWindow := sv } := by
  simp only [applyCurrentTheme]
  split_ifs <;> rfl

theorem normalizeCreateTemplate_untouched (x : Model) (n : List GoStr)
    (w : List (GoStr × List GoStr)) (sv : Int) :
    normalizeCreateTemplate { x with sessions := n, sessionWindows := w, selectedWindow := sv } =
      { normalizeCreateTemplate x with
        sessions := n,
        sessionWindows := w,
        selectedWindow := sv } := by
  simp only [normalizeCreateTemplate]
  split_ifs <;> rfl

theorem configLoadedTheme_untouched (x : Model) (cmsg : ConfigLoadedMsg)
    (n : List GoStr) (w : List (GoStr × List GoStr)) (sv : Int) :
    configLoadedTheme { x with sessions := n, sessionWindows := w, selectedWindow := sv } cmsg =
      { configLoadedTheme x cmsg with
        sessions := n,
        sessionWindows := w,
        selectedWindow := sv } := by
  simp only [configLoadedTheme]
  rw [themeIndexByName_congr
    (show ({ x with
        sessions := n,
        sessionWindows := w,
        selectedWindow := sv,
        environments := cmsg.envs,
        templates := cmsg.templates } : Model).themes =
      ({ x with environments := cmsg.envs, templates := cmsg.templates } : Model).themes
      from rfl) cmsg.theme]
  cases hti : themeIndexByName
      { x with environments := cmsg.envs, templates := cmsg.templates } cmsg.theme with
  | none => rfl
  | some idx =>
    dsimp only [Option.elim]
    by_cases hii : idx ≠ x.themeIndex
    · rw [if_pos hii, if_pos hii]
      exact applyCurrentTheme_untouched
        { x with environments := cmsg.envs, templates := cmsg.templates, themeIndex := idx }
        n w sv
    · rw [if_neg hii, if_neg hii]

theorem applyPendingSelect_untouched (x : Model) (n : List GoStr)
    (w : List (GoStr × List GoStr)) (sv : Int) :
    ∃ sv', applyPendingSelect { x with sessions := n, sessionWindows := w, selectedWindow := sv } =
      { applyPendingSelect x with
        sessions := n,
        sessionWindows := w,
        selectedWindow := sv' } := by
  simp only [applyPendingSelect]
  by_cases hp : trimSpace x.pendingSelect ≠ []
  · rw [if_pos hp, if_pos hp]
    cases hf : findWithIdx (fun e => equalFold e.name x.pendingSelect) x.environments with
    | none => exact ⟨sv, rfl⟩
    | some p => exact ⟨0, rfl⟩
  · rw [if_neg hp, if_neg hp]
    exact ⟨sv, rfl⟩

theorem applyPendingTemplateSelect_untouched (x : Model) (n : List GoStr)
    (w : List (GoStr × List GoStr)) (sv : Int) :
    applyPendingTemplateSelect
        { x with sessions := n, sessionWindows := w, selectedWindow := sv } =
      { applyPendingTemplateSelect x with
        sessions := n,
        sessionWindows := w,
        selectedWindow := sv } := by
  simp only [applyPendingTemplateSelect]
  by_cases hp : trimSpace x.pendingTemplateSelect ≠ []
  · rw [if_pos hp, if_pos hp]
    cases hf : findWithIdx (fun t => equalFold t.name x.pendingTemplateSelect) x.templates with
    | none => rfl
    | some p => rfl
  · rw [if_neg hp, if_neg hp]

theorem configLoadedPre_untouched (x : Model) (cmsg : ConfigLoadedMsg)
    (n : List GoStr) (w : List (GoStr × List GoStr)) (sv : Int) :
    ∃ sv', configLoadedPre { x with sessions := n, sessionWindows := w, selectedWindow := sv } cmsg =
      { configLoadedPre x cmsg with
        sessions := n,
        sessionWindows := w,
        selectedWindow := sv' } := by
  unfold configLoadedPre
  rw [configLoadedTheme_untouched x cmsg n w sv]
  rw [normalizeCreateTemplate_untouched (configLoadedTheme x cmsg) n w sv]
  obtain ⟨sv', haps⟩ := applyPendingSelect_untouched
    (normalizeCreateTemplate (configLoadedTheme x cmsg)) n w sv
  rw [haps]
  rw [applyPendingTemplateSelect_untouched
    (applyPendingSelect (normalizeCreateTemplate (configLoadedTheme x cmsg))) n w sv']
  exact ⟨sv', rfl⟩

theorem configLoadedStatus_sel (cfgPath : Option GoStr) (x : Model) (a b c : Int) :
    configLoadedStatus cfgPath
        { x with selectedEnv := a, selectedWindow := b, selectedTemplate := c } =
      { configLoadedStatus cfgPath x with
        selectedEnv := a,
        selectedWindow := b,
        selectedTemplate := c } := by
  cases cfgPath <;>
    (simp only [configLoadedStatus]; split_ifs <;> rfl)

theorem configLoadedStatus_untouched (cfgPath : Option GoStr) (x : Model)
    (n : List GoStr) (w : List (GoStr × List GoStr)) (a b c : Int) :
    configLoadedStatus cfgPath
        { x with
          sessions := n,
          sessionWindows := w,
          selectedEnv := a,
          selectedWindow := b,
          selectedTemplate := c } =
      { configLoadedStatus cfgPath x with
        sessions := n,
        sessionWindows := w,
        selectedEnv := a,
        selectedWindow := b,
        selectedTemplate := c } := by
  cases cfgPath <;>
    (simp only [configLoadedStatus]; split_ifs <;> rfl)

theorem configLoadedStatus_environments (cfgPath : Option GoStr) (x : Model) :
    (configLoadedStatus cfgPath x).environments = x.environments := by
  cases cfgPath <;> (unfold configLoadedStatus; split_ifs <;> rfl)

theorem configLoadedStatus_templates (cfgPath : Option GoStr) (x : Model) :
    (configLoadedStatus cfgPath x).templates = x.templates := by
  cases cfgPath <;> (unfold configLoadedStatus; split_ifs <;> rfl)

theorem envClamp_of_inv (x : Model) (h1 : x.environments = [] → x.selectedEnv = 0)
    (h2 : x.environments ≠ [] →
      0 ≤ x.selectedEnv ∧ x.selectedEnv < (x.environments.length : Int)) :
    envClamp x = x.selectedEnv := by
  unfold envClamp
  by_cases hE : x.environments = []
  · rw [if_pos hE, h1 hE]
  · obtain ⟨b1, b2⟩ := h2 hE
    rw [if_neg hE, clampIdx_of_bounds _ _ b1 b2]

theorem tplClamp_of_inv (x : Model) (h1 : x.templates = [] → x.selectedTemplate = 0)
    (h2 : x.templates ≠ [] →
      0 ≤ x.selectedTemplate ∧ x.selectedTemplate < (x.templates.length : Int)) :
    tplClamp x = x.selectedTemplate := by
  unfold tplClamp
  by_cases hT : x.templates = []
  · rw [if_pos hT, h1 hT]
  · obtain ⟨b1, b2⟩ := h2 hT
    rw [if_neg hT, clampIdx_of_bounds _ _ b1 b2]

theorem envClamp_untouched (x : Model) (n : List GoStr)
    (w : List (GoStr × List GoStr)) (sv : Int) :
    envClamp { x with sessions := n, sessionWindows := w, selectedWindow := sv } =
      envClamp x := rfl

theorem envClamp_untouched2 (x : Model) (n : List GoStr)
    (w : List (GoStr × List GoStr)) :
    envClamp { x with sessions := n, sessionWindows := w } = envClamp x := rfl

theorem tplClamp_untouched (x : Model) (n : List GoStr)
    (w : List (GoStr × List GoStr)) (sv : Int) :
    tplClamp { x with sessions := n, sessionWindows := w, selectedWindow := sv } =
      tplClamp x := rfl

theorem tplClamp_untouched2 (x : Model) (n : List GoStr)
    (w : List (GoStr × List GoStr)) :
    tplClamp { x with sessions := n, sessionWindows := w } = tplClamp x := rfl

theorem loadCommute_core (cfgPath : Option GoStr) (m : Model)
    (cmsg : ConfigLoadedMsg) (names : List GoStr)
    (windows : List (GoStr × List GoStr)) (herr : cmsg.err = none)
    (i1 : m.environments = [] → m.selectedEnv = 0)
    (i2 : m.environments ≠ [] →
      0 ≤ m.selectedEnv ∧ m.selectedEnv < (m.environments.length : Int))
    (i5 : m.templates = [] → m.selectedTemplate = 0)
    (i6 : m.templates ≠ [] →
      0 ≤ m.selectedTemplate ∧ m.selectedTemplate < (m.templates.length : Int)) :
    { (update cfgPath (update cfgPath m (.configLoaded cmsg)).1
        (.sessionsLoaded names windows none)).1 with selectedWindow := 0 } =
    { (update cfgPath (update cfgPath m (.sessionsLoaded names windows none)).1
        (.configLoaded cmsg)).1 with selectedWindow := 0 } := by
  have hCL : ∀ y : Model, (update cfgPath y (.configLoaded cmsg)).1 =
      configLoadedStatus cfgPath (normalizeSelection (configLoadedPre y cmsg)) := by
    intro y
    show (updateConfigLoaded cfgPath y cmsg).1 = _
    unfold updateConfigLoaded
    rw [herr]
  have hSL : ∀ y : Model, (update cfgPath y (.sessionsLoaded names windows none)).1 =
      normalizeSelection { y with sessions := names, sessionWindows := windows } :=
    fun y => rfl
  rw [hCL, hSL, hCL, hSL]
  have he0 : envClamp { m with sessions := names, sessionWindows := windows } =
      envClamp m := envClamp_untouched2 m names windows
  have ht0 : tplClamp { m with sessions := names, sessionWindows := windows } =
      tplClamp m := tplClamp_untouched2 m names windows
  have hNS : normalizeSelection { m with sessions := names, sessionWindows := windows } =
      { m with
        sessions := names,
        sessionWindows := windows,
        selectedWindow := winClamp { m with sessions := names, sessionWindows := windows } } := by
    rw [normalizeSelection_explicit, he0, envClamp_of_inv m i1 i2, ht0,
      tplClamp_of_inv m i5 i6]
  rw [hNS]
  obtain ⟨svA, hPA⟩ := configLoadedPre_untouched m cmsg names windows
    (winClamp { m with sessions := names, sessionWindows := windows })
  rw [hPA]
  rw [normalizeSelection_explicit (configLoadedPre m cmsg)]
  generalize configLoadedPre m cmsg = pp
  have hNA : normalizeSelection { pp with
      sessions := names,
      sessionWindows := windows,
      selectedWindow := svA } =
    { pp with
      sessions := names,
      sessionWindows := windows,
      selectedEnv := envClamp pp,
      selectedWindow := winClamp { pp with
        sessions := names,
        sessionWindows := windows,
        selectedWindow := svA },
      selectedTemplate := tplClamp pp } := by
    rw [normalizeSelection_explicit, envClamp_untouched pp names windows svA,
      tplClamp_untouched pp names windows svA]
  rw [hNA]
  rw [configLoadedStatus_untouched cfgPath pp names windows (envClamp pp)
    (winClamp { pp with
      sessions := names,
      sessionWindows := windows,
      selectedWindow := svA })
    (tplClamp pp)]
  rw [configLoadedStatus_sel cfgPath pp (envClamp pp) (winClamp pp) (tplClamp pp)]
  have henv0 := configLoadedStatus_environments cfgPath pp
  have htpl0 := configLoadedStatus_templates cfgPath pp
  generalize hT : configLoadedStatus cfgPath pp = tp at *
  have hflat : ({ ({ tp with
      selectedEnv := envClamp pp,
      selectedWindow := winClamp pp,
      selectedTemplate := tplClamp pp } : Model) with
      sessions := names,
      sessionWindows := windows } : Model) =
    { tp with
      sessions := names,
      sessionWindows := windows,
      selectedEnv := envClamp pp,
      selectedWindow := winClamp pp,
      selectedTemplate := tplClamp pp } := rfl
  rw [hflat]
  have heB : envClamp ({ tp with
      sessions := names,
      sessionWindows := windows,
      selectedEnv := envClamp pp,
      selectedWindow := winClamp pp,
      selectedTemplate := tplClamp pp } : Model) = envClamp pp :=
    envClamp_stable
      (show ({ tp with
          sessions := names,
          sessionWindows := windows,
          selectedEnv := envClamp pp,
          selectedWindow := winClamp pp,
          selectedTemplate := tplClamp pp } : Model).environments = pp.environments
        from henv0) rfl
  have htB : tplClamp ({ tp with
      sessions := names,
      sessionWindows := windows,
      selectedEnv := envClamp pp,
      selectedWindow := winClamp pp,
      selectedTemplate := tplClamp pp } : Model) = tplClamp pp :=
    tplClamp_stable
      (show ({ tp with
          sessions := names,
          sessionWindows := windows,
          selectedEnv := envClamp pp,
          selectedWindow := winClamp pp,
          selectedTemplate := tplClamp pp } : Model).templates = pp.templates
        from htpl0) rfl
  rw [normalizeSelection_explicit ({ tp with
      sessions := names,
      sessionWindows := windows,
      selectedEnv := envClamp pp,
      selectedWindow := winClamp pp,
      selectedTemplate := tplClamp pp } : Model)]
  rw [heB, htB]

/-- C2 counterexample: the claim says any subsequent key other than `d`
clears the armed delete confirmation, but the theme-picker toggle
`ctrl+t` (like the shortcuts toggle `?`) returns before the disarm logic:
from an armed state it leaves `deleteConfirm` armed. -/
theorem claim_c2_counterexample :
    gs "ctrl+t" ≠ gs "d" ∧
    ({ c2Model with deleteConfirm := gs "staging" } : Model).deleteConfirm
        = gs "staging" ∧
    (update none { c2Model with deleteConfirm := gs "staging" }
        (.key ⟨gs "ctrl+t", [], false⟩)).1.deleteConfirm = gs "staging" := by
  refine ⟨by decide, rfl, ?_⟩
  decide

/-- C2 (corrected): in Normal mode with the Environments panel focused and
an environment with nonempty trimmed name selected, a first press of `d`
arms the confirmation with the trimmed name, leaving the environment list
unchanged and issuing no request; any subsequent key other than `d` — with
the exception of the overlay toggles `ctrl+t` and `?`, which return before
the disarm logic — clears the armed state; a second press of `d` while
armed on the same name clears the confirmation and issues the delete
request; and executing that request removes the environment found by
case-insensitive trimmed-name match from the persisted list and reports
whether a live derived session was killed. -/
theorem claim_c2_twoPressDelete (cfgPath : Option GoStr) (m : Model)
    (env : Environment)
    (h1 : m.showThemePicker = false) (h2 : m.showShortcuts = false)
    (h3 : m.createMode = false) (h4 : m.templateMode = false)
    (hfocus : m.focusPane = focusPaneEnvironments)
    (henv : currentEnv m = some env) (hname : trimSpace env.name ≠ []) :
    (m.deleteConfirm ≠ trimSpace env.name →
      (update cfgPath m (.key ⟨gs "d", [], false⟩)).1.deleteConfirm
          = trimSpace env.name ∧
      (update cfgPath m (.key ⟨gs "d", [], false⟩)).1.environments
          = m.environments ∧
      (update cfgPath m (.key ⟨gs "d", [], false⟩)).2 = []) ∧
    (∀ key : GoStr, key ≠ gs "d" → key ≠ gs "ctrl+t" → key ≠ gs "?" →
      (update cfgPath m (.key ⟨key, [], false⟩)).1.deleteConfirm = []) ∧
    (m.deleteConfirm = trimSpace env.name →
      (update cfgPath m (.key ⟨gs "d", [], false⟩)).1.deleteConfirm = [] ∧
      (update cfgPath m (.key ⟨gs "d", [], false⟩)).2
          = [Request.deleteEnvironment (trimSpace env.name)]) ∧
    (∀ (data : Data) (tmuxOk : Bool) (hasSession : GoStr → Bool)
        (idx : Nat) (removed : Environment),
      findWithIdx (fun e => equalFold (trimSpace e.name) (trimSpace env.name))
          data.environments = some (idx, removed) →
      deleteEnvironmentRun (trimSpace env.name) data tmuxOk hasSession =
        .ok { environment := removed.name, session := SessionName removed.name,
              killed := tmuxOk && hasSession (SessionName removed.name),
              newEnvironments := data.environments.eraseIdx idx }) := by
  have hred : ∀ key : GoStr, key ≠ gs "ctrl+t" → key ≠ gs "?" →
      update cfgPath m (.key ⟨key, [], false⟩) = updateNormalKey m key := by
    intro key hk1 hk2
    exact updateKey_normal m ⟨key, [], false⟩ h1 h2 h3 h4 hk1 hk2
  refine ⟨?_, ?_, ?_, ?_⟩
  · intro hnot
    rw [hred (gs "d") (by decide) (by decide), updateNormalKey_d m hfocus,
      startDeleteEnvironment_arm { m with killConfirm := [] } env henv hname hnot]
    exact ⟨rfl, rfl, rfl⟩
  · intro key hk hk1 hk2
    rw [hred key hk1 hk2]
    exact updateNormalKey_deleteConfirm m key hk
  · intro harmed
    rw [hred (gs "d") (by decide) (by decide), updateNormalKey_d m hfocus,
      startDeleteEnvironment_commit { m with killConfirm := [] } env henv hname harmed]
    exact ⟨rfl, rfl⟩
  · intro data tmuxOk hasSession idx removed hfind
    cases hb : tmuxOk && hasSession (SessionName removed.name) <;>
      simp [deleteEnvironmentRun, trimSpace_trimSpace, hfind, hb]

/-- Witness for C2 at the concrete state `c2Model`: first press arms on
`"staging"`, second press from the armed state issues the delete request,
and executing it on a one-environment config removes the environment and
kills its live session. -/
theorem claim_c2_twoPressDelete_witness :
    (update none c2Model (.key ⟨gs "d", [], false⟩)).1.deleteConfirm
        = gs "staging" ∧
    (update none { c2Model with deleteConfirm := gs "staging" }
        (.key ⟨gs "d", [], false⟩)).2
        = [Request.deleteEnvironment (gs "staging")] ∧
    deleteEnvironmentRun (gs "staging") ⟨[c2Env], [], []⟩ true (fun _ => true) =
      .ok { environment := gs "staging", session := gs "ide-staging",
            killed := true, newEnvironments := [] } :=
  ⟨((claim_c2_twoPressDelete none c2Model c2Env rfl rfl rfl rfl rfl (by decide)
      (by decide)).1 (by decide)).1,
   ((claim_c2_twoPressDelete none { c2Model with deleteConfirm := gs "staging" }
      c2Env rfl rfl rfl rfl rfl (by decide) (by decide)).2.2.1 (by decide)).2,
   (claim_c2_twoPressDelete none c2Model c2Env rfl rfl rfl rfl rfl (by decide)
      (by decide)).2.2.2 ⟨[c2Env], [], []⟩ true (fun _ => true) 0 c2Env (by decide)⟩

/-- C5 counterexample: the two load-result handlers do not commute in
general.  First, with error results the status reflects whichever handler
ran last.  Second, even for success results from a state satisfying the
selection invariant, the window selection diverges: clamping against the
old window list before the config installs new environments differs from
clamping after. -/
theorem claim_c5_counterexample :
    ((update none (update none newModel
          (.configLoaded { err := some (gs "boom") })).1
        (.sessionsLoaded [] [] (some (gs "boom")))).1 ≠
      (update none (update none newModel
          (.sessionsLoaded [] [] (some (gs "boom")))).1
        (.configLoaded { err := some (gs "boom") })).1) ∧
    SelInv c5Model ∧
    ((update none (update none c5Model (.configLoaded c5Cfg)).1
        (.sessionsLoaded c5Names c5Windows none)).1.selectedWindow ≠
      (update none (update none c5Model
          (.sessionsLoaded c5Names c5Windows none)).1
        (.configLoaded c5Cfg)).1.selectedWindow) := by
  refine ⟨by decide, by decide, by decide⟩

/-- C5 (corrected): for success results from a state satisfying the
selection invariant, applying the config-load handler and the session-load
handler in either order yields the same final state on every field except
the window selection, whose clamping depends on the interleaving. -/
theorem claim_c5_loadCommute (cfgPath : Option GoStr) (m : Model)
    (cmsg : ConfigLoadedMsg) (names : List GoStr)
    (windows : List (GoStr × List GoStr))
    (herr : cmsg.err = none) (hinv : SelInv m) :
    { (update cfgPath (update cfgPath m (.configLoaded cmsg)).1
        (.sessionsLoaded names windows none)).1 with selectedWindow := 0 } =
    { (update cfgPath (update cfgPath m (.sessionsLoaded names windows none)).1
        (.configLoaded cmsg)).1 with selectedWindow := 0 } := by
  obtain ⟨i1, i2, -, -, i5, i6, -, -⟩ := hinv
  exact loadCommute_core cfgPath m cmsg names windows herr i1 i2 i5 i6

/-- Witness for C5 at the concrete state of the counterexample: the two
orders agree once the window selection is masked. -/
theorem claim_c5_loadCommute_witness :
    SelInv c5Model ∧
    { (update none (update none c5Model (.configLoaded c5Cfg)).1
        (.sessionsLoaded c5Names c5Windows none)).1 with selectedWindow := 0 } =
    { (update none (update none c5Model (.sessionsLoaded c5Names c5Windows none)).1
        (.configLoaded c5Cfg)).1 with selectedWindow := 0 } :=
  ⟨by decide,
   claim_c5_loadCommute none c5Model c5Cfg c5Names c5Windows rfl (by decide)⟩

/-- C10: from any reachable state, processing any message leaves every
selection index in bounds: `selectedEnv` is 0 on an empty environment list
and otherwise in `[0, len)`; `selectedWindow` likewise against the current
window-name list; `selectedTemplate` likewise against the template list;
and `themePickerCursor` likewise against the filtered theme list. -/
theorem claim_c10_selectionInvariant (cfgPath : Option GoStr) (m : Model)
    (h : Reachable cfgPath m) (msg : Msg) :
    SelInv (update cfgPath m msg).1 :=
  selInv_update cfgPath m msg (selInv_reachable cfgPath m h)

/-- Witness for C10 at the initial model and a concrete key message. -/
theorem claim_c10_selectionInvariant_witness :
    SelInv (update none newModel (.key ⟨gs "j", [], false⟩)).1 :=
  claim_c10_selectionInvariant none newModel Reachable.init (.key ⟨gs "j", [], false⟩)

end Ide
